import Mathlib

/-!
Shallow embedding of `src/DistanceIMTTrellis.py`.

The file embeds the two classes of the source, `DistanceIMTTrellis` (mean
attenuation plots) and `DistanceSigmaIMTTrellis` (standard-deviation plots),
together with the module-level static tables `PLOT_UNITS` and
`DISTANCE_LABEL_MAP`.  Python exceptions are modelled by the `PyErr` type and
fallible code returns `Except PyErr _`.  The external hazard library
(`imt.from_string` and `gmpe.get_mean_and_stddevs`) is passed in as explicit
function parameters, so theorems quantify over its behaviour.  Numeric array
cells are modelled as `Int` (their numeric nature plays no role in the
properties below); a 2-D numpy array is a list of rows.
-/

/-- Python exception values, distinguished by class (and carrying the key or
message where the class alone does not determine the control flow). -/
inductive PyErr where
  | keyError (key : String)
  | attributeError (name : String)
  | typeError (msg : String)
  | indexError (msg : String)
  | valueError (msg : String)
  | assertionError
  | otherError (msg : String)
deriving DecidableEq

/-- Is this exception a `KeyError`?  (The only class the source catches.) -/
def PyErr.isKeyError : PyErr → Bool
  | .keyError _ => true
  | _ => false

/-- The module-level `PLOT_UNITS` dictionary of the source. -/
def PLOT_UNITS : List (String × String) :=
  [("PGA", "g"), ("PGV", "cm/s"), ("SA", "g"), ("IA", "m/s"),
   ("CSV", "g-sec"), ("RSD", "s"), ("MMI", "")]

/-- The module-level `DISTANCE_LABEL_MAP` dictionary of the source. -/
def DISTANCE_LABEL_MAP : List (String × String) :=
  [("repi", "Epicentral Dist."), ("rhypo", "Hypocentral Dist."),
   ("rjb", "Joyner-Boore Dist."), ("rrup", "Rupture Dist."),
   ("rx", "Rx Dist.")]

/-- The structured intensity-measure descriptor produced by the external
parser `imt.from_string`; opaque to this code, identified by a tag. -/
structure IMT where
  tag : String
deriving DecidableEq

/-- One entry of the ground-motion value table: either the filled 2-D array
(`rows` = rupture scenarios, columns = sites) or the empty marker `[]` that
`get_ground_motion_values` substitutes on a `KeyError`. -/
inductive GMVEntry where
  | table (rows : List (List Int))
  | empty
deriving DecidableEq

/-- The nested value table `{gmpe class name: {imt string: entry}}`, an
ordered dictionary modelled as an association list in insertion order. -/
abbrev GMVTable := List (String × List (String × GMVEntry))

/-- The state a trellis object carries into `get_ground_motion_values` and
`_build_plot`: the GMPE class names (`self.gsims`), the intensity-measure
strings (`self.imts`), the number of rupture contexts (`len(self.rctx)`),
`self.nsites`, the requested standard-deviation name (`self.stddevs`),
`self.plot_type`, `self.distance_type`, and the distance context `self.dctx`
modelled as a map from attribute name to distance array. -/
structure SigmaTrellis where
  gsims : List String
  imts : List String
  numRctx : Nat
  nsites : Nat
  stddevs : String
  plot_type : String
  distance_type : String
  dctx : List (String × List Int)
deriving DecidableEq

/-- The signature of the external evaluation entry point
`gmpe.get_mean_and_stddevs(sctx, rctx[iloc], dctx, imt, stddev_types)`:
given the GMPE class name, the rupture-context index, the parsed
intensity-measure descriptor and the requested standard-deviation kinds, it
returns (mean array, list of standard-deviation arrays) or raises. -/
abbrev GmmFun := String → Nat → IMT → List String → Except PyErr (List Int × List (List Int))

/-- The signature of the external parser `imt.from_string`. -/
abbrev FromStringFun := String → Except PyErr IMT

/-- The body of one iteration of the inner rupture-context loop of
`DistanceSigmaIMTTrellis.get_ground_motion_values` (the statements inside the
`try`): parse the intensity-measure string, call the external evaluation, and
take `sigmas[0]` (an `IndexError` if no standard-deviation array came back). -/
def rowEvalF (fromString : FromStringFun) (gmm : GmmFun) (t : SigmaTrellis)
    (g i_m : String) (iloc : Nat) : Except PyErr (List Int) := do
  let p ← fromString i_m
  let ms ← gmm g iloc p [t.stddevs]
  match ms.2 with
  | [] => .error (.indexError ("list index out of range"))
  | s :: _ => .ok s

/-- The value a successful row evaluation produced (junk `[]` otherwise);
used only to describe results of loops whose rows all succeeded. -/
def rowValD (re : Nat → Except PyErr (List Int)) (j : Nat) : List Int :=
  match re j with
  | .ok v => v
  | .error _ => []

/-- The inner `for iloc, rct in enumerate(self.rctx)` loop of
`get_ground_motion_values`, filling the rows of the pre-allocated array
`arr`: on a successful row whose array matches the site count the row is
assigned (numpy broadcast raises a `ValueError` on a length mismatch); on a
`KeyError` the whole entry becomes the empty marker and the loop `break`s;
any other exception propagates. -/
def fillRows (re : Nat → Except PyErr (List Int)) (nsites : Nat) :
    List Nat → List (List Int) → Except PyErr GMVEntry
  | [], arr => .ok (.table arr)
  | i :: rest, arr =>
    match re i with
    | .ok v =>
      if v.length = nsites then fillRows re nsites rest (arr.set i v)
      else .error (.valueError ("could not broadcast input array"))
    | .error e =>
      if e.isKeyError then .ok .empty else .error e

/-- The per-(GMPE, IM) computation of `get_ground_motion_values`: allocate
`np.zeros([len(self.rctx), self.nsites])` and run the rupture-context loop
over rows `0 .. numRctx - 1`. -/
def computeEntry (re : Nat → Except PyErr (List Int)) (numRctx nsites : Nat) :
    Except PyErr GMVEntry :=
  fillRows re nsites (List.range numRctx) (List.replicate numRctx (List.replicate nsites 0))

/-- The `for i_m in self.imts` loop of `get_ground_motion_values`. -/
def collectIMs (re2 : String → Nat → Except PyErr (List Int)) (numRctx nsites : Nat) :
    List String → Except PyErr (List (String × GMVEntry))
  | [] => .ok []
  | i_m :: rest => do
    let en ← computeEntry (re2 i_m) numRctx nsites
    let r ← collectIMs re2 numRctx nsites rest
    .ok ((i_m, en) :: r)

/-- The `for gmpe in self.gsims` loop of `get_ground_motion_values`. -/
def collectGMVs (re3 : String → String → Nat → Except PyErr (List Int))
    (imts : List String) (numRctx nsites : Nat) :
    List String → Except PyErr GMVTable
  | [] => .ok []
  | g :: rest => do
    let ims ← collectIMs (re3 g) numRctx nsites imts
    let r ← collectGMVs re3 imts numRctx nsites rest
    .ok ((g, ims) :: r)

/-- The method `DistanceSigmaIMTTrellis.get_ground_motion_values`: the nested dictionary
of standard-deviation values, `{gmpe: {imt: array}}`. -/
def get_ground_motion_values (t : SigmaTrellis) (fromString : FromStringFun)
    (gmm : GmmFun) : Except PyErr GMVTable :=
  collectGMVs (fun g i_m => rowEvalF fromString gmm t g i_m) t.imts t.numRctx t.nsites t.gsims

/-- Dictionary lookup `gmvs[g][i_m]` on the nested table. -/
def lookup2 (tbl : GMVTable) (g i_m : String) : Option GMVEntry :=
  match tbl.lookup g with
  | some ims => ims.lookup i_m
  | none => none

/-- The table entry a collector run produced for a pair (`none` when the run
raised or the pair is absent). -/
def collectedEntry (r : Except PyErr GMVTable) (g i_m : String) : Option GMVEntry :=
  match r with
  | .ok tbl => lookup2 tbl g i_m
  | .error _ => none

/-- Did the computation return normally (no exception)? -/
def exOk {α : Type} : Except PyErr α → Bool
  | .ok _ => true
  | .error _ => false

/-- The rows of a table entry (junk `[]` for the empty marker or a missing
entry). -/
def entryRows : Option GMVEntry → List (List Int)
  | some (.table rows) => rows
  | _ => []

/-- Is the entry present and a filled 2-D array (not the empty marker)? -/
def isTable : Option GMVEntry → Bool
  | some (.table _) => true
  | _ => false

/-- Decidable helper for hypotheses: row `j` evaluates successfully to an
array of the given length. -/
def rowOkWithLen (re : Nat → Except PyErr (List Int)) (s j : Nat) : Bool :=
  match re j with
  | .ok v => v.length == s
  | .error _ => false

/-- Decidable helper for hypotheses: row `j` fails with a `KeyError`. -/
def rowKeyErr (re : Nat → Except PyErr (List Int)) (j : Nat) : Bool :=
  match re j with
  | .error (.keyError _) => true
  | _ => false

/-- Character-list prefix match: does the pattern (first argument) match the
front of the text (second argument)? -/
def leadMatch : List Char → List Char → Bool
  | [], _ => true
  | _ :: _, [] => false
  | a :: as, b :: bs => (a == b) && leadMatch as bs

/-- Does the pattern occur as a contiguous chunk of the text? -/
def hasChunk (pat : List Char) : List Char → Bool
  | [] => leadMatch pat []
  | c :: cs => leadMatch pat (c :: cs) || hasChunk pat cs

/-- The Python substring test `pat in s`. -/
def strContains (s pat : String) : Bool :=
  hasChunk pat.toList s.toList

/-- The four drawing calls `_build_plot` can make on the matplotlib axis:
`ax.semilogy`, `ax.loglog`, `ax.semilogx` and `ax.plot` (linear). -/
inductive DrawKind where
  | semilogy
  | loglog
  | semilogx
  | linear
deriving DecidableEq

/-- One line drawn on the axis: the scale kind of the call that drew it, its
x data, its y data, and its legend label. -/
structure Line where
  kind : DrawKind
  xs : List Int
  ys : List Int
  label : String
deriving DecidableEq

/-- The observable state of the matplotlib axis mutated by `_build_plot`:
drawn lines, grid flag, x-limits and axis labels. -/
structure AxisState where
  lines : List Line
  grid : Bool
  xlim : Option (Int × Int)
  xlabel : Option String
  ylabel : Option String
deriving DecidableEq

/-- A fresh axis, before any drawing. -/
def AxisState.start : AxisState :=
  { lines := [], grid := false, xlim := none, xlabel := none, ylabel := none }

/-- The expression `gmvs[gmpe.__class__.__name__][i_m][0, :]`: dictionary
lookups raise `KeyError` on a missing key; indexing `[0, :]` raises a
`TypeError` on the empty-marker Python list `[]` and an `IndexError` on an
array with zero rows. -/
def getEntryRow0 (gmvs : GMVTable) (name i_m : String) : Except PyErr (List Int) :=
  match gmvs.lookup name with
  | none => .error (.keyError name)
  | some ims =>
    match ims.lookup i_m with
    | none => .error (.keyError i_m)
    | some .empty => .error (.typeError ("list indices must be integers"))
    | some (.table []) => .error (.indexError ("index 0 is out of bounds"))
    | some (.table (r :: _)) => .ok r

/-- A drawing call on the axis: matplotlib raises a `ValueError` when the x
and y arrays have different lengths, otherwise appends the line. -/
def axDraw (ax : AxisState) (k : DrawKind) (xs ys : List Int) (lbl : String) :
    Except PyErr AxisState :=
  if xs.length = ys.length then
    .ok { ax with lines := ax.lines ++ [{ kind := k, xs := xs, ys := ys, label := lbl }] }
  else .error (.valueError ("x and y must have same first dimension"))

/-- Python `dv[0]` on a list: `IndexError` when empty. -/
def pyHead (dv : List Int) : Except PyErr Int :=
  match dv with
  | [] => .error (.indexError ("list index out of range"))
  | x :: _ => .ok x

/-- Python `dv[-1]` on a list: `IndexError` when empty. -/
def pyLast (dv : List Int) : Except PyErr Int :=
  match dv.getLast? with
  | none => .error (.indexError ("list index out of range"))
  | some x => .ok x

/-- The lookup `DISTANCE_LABEL_MAP[self.distance_type]` performed by both
`_set_labels` methods: a `KeyError` on an unmapped distance type. -/
def dlabelRes (distance_type : String) : Except PyErr String :=
  match DISTANCE_LABEL_MAP.lookup distance_type with
  | some l => Except.ok l
  | none => Except.error (.keyError distance_type)

/-- The unit-selection conditional of `DistanceIMTTrellis._set_labels`: the
SA entry of `PLOT_UNITS` whenever the IM string contains `"SA("`, the entry
for the IM string itself otherwise (a `KeyError` on a missing key). -/
def unitsRes (i_m : String) : Except PyErr String :=
  if strContains i_m ("SA(") then
    match PLOT_UNITS.lookup ("SA") with
    | some u => Except.ok u
    | none => Except.error (.keyError ("SA"))
  else
    match PLOT_UNITS.lookup i_m with
    | some u => Except.ok u
    | none => Except.error (.keyError i_m)

/-- The method `DistanceIMTTrellis._set_labels`: x-label from `DISTANCE_LABEL_MAP` (a
`KeyError` for an unmapped distance type), y-label `"Median <IM> (<unit>)"`
with the unit chosen by `unitsRes`. -/
def set_labels_mean (distance_type i_m : String) (ax : AxisState) :
    Except PyErr AxisState := do
  let dl ← dlabelRes distance_type
  let ax1 := { ax with xlabel := some (dl ++ " (km)") }
  let units ← unitsRes i_m
  .ok { ax1 with ylabel := some ("Median " ++ i_m ++ " (" ++ units ++ ")") }

/-- The method `DistanceSigmaIMTTrellis._set_labels`: the same x-label policy, and
y-label `"<stddevs> Std. Dev."`. -/
def set_labels_sigma (distance_type stddevs : String) (ax : AxisState) :
    Except PyErr AxisState := do
  let dl ← dlabelRes distance_type
  .ok { ax with xlabel := some (dl ++ " (km)"),
                ylabel := some (stddevs ++ " Std. Dev.") }

/-- One iteration of the `for gmpe in self.gsims` loop of
`DistanceIMTTrellis._build_plot` (after the label append): fetch row 0 of the
entry, draw on a semi-log-y scale when `plot_type == "semilogy"` and log-log
otherwise, read `dv[0]` and `dv[-1]`, enable the grid, set the x-limits and
set the labels. -/
def stepMean (plot_type distance_type i_m : String) (dv : List Int)
    (gmvs : GMVTable) (g : String) (ax : AxisState) : Except PyErr AxisState := do
  let ys ← getEntryRow0 gmvs g i_m
  let ax1 ← if plot_type = "semilogy" then axDraw ax .semilogy dv ys g
            else axDraw ax .loglog dv ys g
  let minx ← pyHead dv
  let maxx ← pyLast dv
  set_labels_mean distance_type i_m { ax1 with grid := true, xlim := some (minx, maxx) }

/-- One iteration of the `for gmpe in self.gsims` loop of
`DistanceSigmaIMTTrellis._build_plot`: identical shape, but draws on a
semi-log-x scale when `plot_type == "loglog"` and linearly otherwise, and
sets the standard-deviation labels. -/
def stepSigma (plot_type distance_type stddevs i_m : String) (dv : List Int)
    (gmvs : GMVTable) (g : String) (ax : AxisState) : Except PyErr AxisState := do
  let ys ← getEntryRow0 gmvs g i_m
  let ax1 ← if plot_type = "loglog" then axDraw ax .semilogx dv ys g
            else axDraw ax .linear dv ys g
  let minx ← pyHead dv
  let maxx ← pyLast dv
  set_labels_sigma distance_type stddevs { ax1 with grid := true, xlim := some (minx, maxx) }

/-- The GMPE loop of either `_build_plot`, threading the `self.labels` list
and the axis through the per-GMPE step. -/
def buildLoop (step : String → AxisState → Except PyErr AxisState) :
    List String → List String → AxisState → Except PyErr (List String × AxisState)
  | [], labels, ax => .ok (labels, ax)
  | g :: rest, labels, ax =>
    match step g ax with
    | .ok ax1 => buildLoop step rest (labels ++ [g]) ax1
    | .error e => .error e

/-- The distance-array read `getattr(self.dctx, self.distance_type)` at the
top of both `_build_plot` methods: an `AttributeError` when the distance
context does not provide the configured distance type. -/
def distAttr (t : SigmaTrellis) : Except PyErr (List Int) :=
  match t.dctx.lookup t.distance_type with
  | some v => Except.ok v
  | none => Except.error (.attributeError t.distance_type)

/-- The method `DistanceIMTTrellis._build_plot`: reset the label/line lists, read the
distance array via `distAttr`, assert the plot type is `"loglog"` or
`"semilogy"`, then run the GMPE loop on a fresh axis. -/
def build_plot_mean (t : SigmaTrellis) (gmvs : GMVTable) (i_m : String) :
    Except PyErr (List String × AxisState) := do
  let dv ← distAttr t
  if t.plot_type = "loglog" ∨ t.plot_type = "semilogy" then
    buildLoop (stepMean t.plot_type t.distance_type i_m dv gmvs) t.gsims [] AxisState.start
  else
    .error .assertionError

/-- The method `DistanceSigmaIMTTrellis._build_plot`: same structure with the
standard-deviation step. -/
def build_plot_sigma (t : SigmaTrellis) (gmvs : GMVTable) (i_m : String) :
    Except PyErr (List String × AxisState) := do
  let dv ← distAttr t
  if t.plot_type = "loglog" ∨ t.plot_type = "semilogy" then
    buildLoop (stepSigma t.plot_type t.distance_type t.stddevs i_m dv gmvs) t.gsims [] AxisState.start
  else
    .error .assertionError

/-- Modelled from the spec: the context construction of the inherited base
class `MagnitudeIMTTrellis` is not under `src/`; per the spec the distance
context describes "the chosen distance metric (one of a small fixed set:
epicentral, hypocentral, Joyner-Boore, rupture, Rx)", so the modelled
distance context binds exactly those five metric attributes to the distance
array. -/
def specDctx (dists : List Int) : List (String × List Int) :=
  [("repi", dists), ("rhypo", dists), ("rjb", dists), ("rrup", dists), ("rx", dists)]

/-- The scale kind the mean variant draws with for a given plot-type flag. -/
def meanKindOf (pt : String) : DrawKind :=
  if pt = "semilogy" then .semilogy else .loglog

/-- The scale kind the standard-deviation variant draws with for a given
plot-type flag. -/
def sigmaKindOf (pt : String) : DrawKind :=
  if pt = "loglog" then .semilogx else .linear

/-- Row 0 of the entry for a pair, as the renderer reads it (junk `[]` when
the read would raise). -/
def row0D (gmvs : GMVTable) (i_m g : String) : List Int :=
  match getEntryRow0 gmvs g i_m with
  | .ok v => v
  | .error _ => []

/-- Decidable helper for hypotheses: the renderer can read row 0 for this
GMPE and its length matches the distance array. -/
def gOK (gmvs : GMVTable) (i_m : String) (dv : List Int) (g : String) : Bool :=
  match getEntryRow0 gmvs g i_m with
  | .ok ys => dv.length == ys.length
  | .error _ => false

/-- The scale kinds of the lines a rendering call drew (none when it
raised). -/
def lineKinds (r : Except PyErr (List String × AxisState)) : List DrawKind :=
  match r with
  | .ok p => p.2.lines.map Line.kind
  | .error _ => []

/-- The y data of the lines a rendering call drew (none when it raised). -/
def lineYs (r : Except PyErr (List String × AxisState)) : List (List Int) :=
  match r with
  | .ok p => p.2.lines.map Line.ys
  | .error _ => []

/-- The x-limits a rendering call left on the axis (none when it raised). -/
def axXlim (r : Except PyErr (List String × AxisState)) : Option (Int × Int) :=
  match r with
  | .ok p => p.2.xlim
  | .error _ => none

/-- The x-axis label a rendering call left on the axis. -/
def axXlabel (r : Except PyErr (List String × AxisState)) : Option String :=
  match r with
  | .ok p => p.2.xlabel
  | .error _ => none

/-- The y-axis label a rendering call left on the axis. -/
def axYlabel (r : Except PyErr (List String × AxisState)) : Option String :=
  match r with
  | .ok p => p.2.ylabel
  | .error _ => none

/-- The axis state after a successful GMPE loop over `names` starting from
`ax`: one line per GMPE in order (all with the same scale kind, x data `dv`
and per-GMPE y data), grid on, the x-limits and both labels set — or `ax`
untouched when there was no GMPE to draw. -/
def axAfter (k : DrawKind) (dv : List Int) (yrow : String → List Int)
    (xr : Int × Int) (xl yl : String) (names : List String) (ax : AxisState) : AxisState :=
  match names with
  | [] => ax
  | _ :: _ =>
    { lines := ax.lines ++ names.map (fun g => { kind := k, xs := dv, ys := yrow g, label := g }),
      grid := true, xlim := some xr, xlabel := some xl, ylabel := some yl }

/-- Rows written by the inner rupture loop when every row succeeds: fold the
row assignments over the pre-allocated array. -/
def setRows (re : Nat → Except PyErr (List Int)) (idxs : List Nat)
    (arr : List (List Int)) : List (List Int) :=
  idxs.foldl (fun a i => a.set i (rowValD re i)) arr

lemma exOk_ok {α : Type} {r : Except PyErr α} (h : exOk r = true) : ∃ x, r = Except.ok x := by
  cases r with
  | ok x => exact ⟨x, rfl⟩
  | error e => simp [exOk] at h

lemma rowOkWithLen_ok {re : Nat → Except PyErr (List Int)} {s j : Nat}
    (h : rowOkWithLen re s j = true) : ∃ v, re j = Except.ok v ∧ v.length = s := by
  unfold rowOkWithLen at h
  cases hj : re j with
  | ok v =>
    rw [hj] at h
    exact ⟨v, rfl, by simpa using h⟩
  | error e => rw [hj] at h; simp at h

lemma rowKeyErr_key {re : Nat → Except PyErr (List Int)} {j : Nat}
    (h : rowKeyErr re j = true) : ∃ key, re j = Except.error (PyErr.keyError key) := by
  unfold rowKeyErr at h
  cases hj : re j with
  | ok v => rw [hj] at h; simp at h
  | error e =>
    rw [hj] at h
    cases e <;> simp_all

lemma range_split_at (k n : Nat) (h : k < n) :
    List.range n = List.range k ++ k :: List.range' (k + 1) (n - k - 1) := by
  have hk : k ≤ n := Nat.le_of_lt h
  have h3 : List.range' 0 k ++ List.range' k (n - k) = List.range' 0 n := by
    have h4 := List.range'_append_1 0 k (n - k)
    simpa [Nat.sub_add_cancel hk] using h4
  have h5 : n - k = (n - k - 1) + 1 := by omega
  have h6 : List.range' k (n - k) = k :: List.range' (k + 1) (n - k - 1) := by
    rw [h5]
    exact List.range'_succ k (n - k - 1) 1
  rw [List.range_eq_range', ← h3, h6, List.range_eq_range']

lemma fillRows_pre_key (re : Nat → Except PyErr (List Int)) (s k : Nat) (key : String)
    (post : List Nat) (hk : re k = Except.error (PyErr.keyError key)) :
    ∀ (pre : List Nat) (arr : List (List Int)),
      (∀ i ∈ pre, rowOkWithLen re s i = true) →
      fillRows re s (pre ++ k :: post) arr = Except.ok GMVEntry.empty := by
  intro pre
  induction pre with
  | nil =>
    intro arr _
    simp [fillRows, hk, PyErr.isKeyError]
  | cons i it ih =>
    intro arr hpre
    obtain ⟨v, hv, hvl⟩ := rowOkWithLen_ok (hpre i (by simp))
    simp only [List.cons_append, fillRows, hv, hvl, if_pos]
    exact ih _ (fun j hj => hpre j (by simp [hj]))

lemma fillRows_pre_err (re : Nat → Except PyErr (List Int)) (s k : Nat) (e : PyErr)
    (post : List Nat) (hk : re k = Except.error e) (hne : e.isKeyError = false) :
    ∀ (pre : List Nat) (arr : List (List Int)),
      (∀ i ∈ pre, rowOkWithLen re s i = true) →
      fillRows re s (pre ++ k :: post) arr = Except.error e := by
  intro pre
  induction pre with
  | nil =>
    intro arr _
    simp [fillRows, hk, hne]
  | cons i it ih =>
    intro arr hpre
    obtain ⟨v, hv, hvl⟩ := rowOkWithLen_ok (hpre i (by simp))
    simp only [List.cons_append, fillRows, hv, hvl, if_pos]
    exact ih _ (fun j hj => hpre j (by simp [hj]))

lemma fillRows_all_ok (re : Nat → Except PyErr (List Int)) (s : Nat) :
    ∀ (idxs : List Nat) (arr : List (List Int)),
      (∀ i ∈ idxs, rowOkWithLen re s i = true) →
      fillRows re s idxs arr = Except.ok (GMVEntry.table (setRows re idxs arr)) := by
  intro idxs
  induction idxs with
  | nil => intro arr _; simp [fillRows, setRows]
  | cons i it ih =>
    intro arr hpre
    obtain ⟨v, hv, hvl⟩ := rowOkWithLen_ok (hpre i (by simp))
    simp only [fillRows, hv, hvl, if_pos]
    have hrv : rowValD re i = v := by simp [rowValD, hv]
    have h2 := ih (arr.set i v) (fun j hj => hpre j (by simp [hj]))
    simpa [setRows, hrv] using h2

lemma fillRows_error_not_key (re : Nat → Except PyErr (List Int)) (s : Nat) :
    ∀ (idxs : List Nat) (arr : List (List Int)) (e : PyErr),
      fillRows re s idxs arr = Except.error e → e.isKeyError = false := by
  intro idxs
  induction idxs with
  | nil => intro arr e h; simp [fillRows] at h
  | cons i it ih =>
    intro arr e h
    cases hi : re i with
    | ok v =>
      simp only [fillRows, hi] at h
      by_cases hv : v.length = s
      · rw [if_pos hv] at h
        exact ih _ _ h
      · rw [if_neg hv] at h
        cases h
        rfl
    | error e2 =>
      simp only [fillRows, hi] at h
      by_cases hke : e2.isKeyError = true
      · rw [if_pos hke] at h
        cases h
      · rw [if_neg hke] at h
        cases h
        simpa using hke

lemma fillRows_empty_key (re : Nat → Except PyErr (List Int)) (s : Nat) :
    ∀ (idxs : List Nat) (arr : List (List Int)),
      fillRows re s idxs arr = Except.ok GMVEntry.empty →
      ∃ i ∈ idxs, ∃ key, re i = Except.error (PyErr.keyError key) := by
  intro idxs
  induction idxs with
  | nil => intro arr h; simp [fillRows] at h
  | cons i it ih =>
    intro arr h
    cases hi : re i with
    | ok v =>
      simp only [fillRows, hi] at h
      by_cases hv : v.length = s
      · rw [if_pos hv] at h
        obtain ⟨j, hj, key, hkey⟩ := ih _ h
        exact ⟨j, by simp [hj], key, hkey⟩
      · rw [if_neg hv] at h
        cases h
    | error e2 =>
      simp only [fillRows, hi] at h
      by_cases hke : e2.isKeyError = true
      · obtain ⟨key, hkey⟩ : ∃ key, e2 = PyErr.keyError key := by
          cases e2 <;> simp_all [PyErr.isKeyError]
        exact ⟨i, by simp, key, by rw [hi, hkey]⟩
      · rw [if_neg hke] at h
        cases h

lemma setRows_cons (re : Nat → Except PyErr (List Int)) (i : Nat) (it : List Nat)
    (arr : List (List Int)) :
    setRows re (i :: it) arr = setRows re it (arr.set i (rowValD re i)) := rfl

lemma setRows_length (re : Nat → Except PyErr (List Int)) :
    ∀ (idxs : List Nat) (arr : List (List Int)),
      (setRows re idxs arr).length = arr.length := by
  intro idxs
  induction idxs with
  | nil => intro arr; rfl
  | cons i it ih =>
    intro arr
    rw [setRows_cons, ih, List.length_set]

lemma setRows_append (re : Nat → Except PyErr (List Int)) (l1 l2 : List Nat)
    (arr : List (List Int)) :
    setRows re (l1 ++ l2) arr = setRows re l2 (setRows re l1 arr) := by
  simp [setRows, List.foldl_append]

lemma setRows_range_getD (re : Nat → Except PyErr (List Int)) :
    ∀ (n : Nat) (arr : List (List Int)) (j : Nat), j < n → n ≤ arr.length →
      (setRows re (List.range n) arr).getD j [] = rowValD re j := by
  intro n
  induction n with
  | zero => intro arr j hj _; omega
  | succ n ih =>
    intro arr j hj hlen
    rw [List.range_succ, setRows_append]
    have hlenA : (setRows re (List.range n) arr).length = arr.length := setRows_length re _ _
    by_cases hjn : j = n
    · have hlt : n < (List.foldl (fun a i => a.set i (rowValD re i)) arr (List.range n)).length := by
        simpa [setRows] using (by omega : n < (setRows re (List.range n) arr).length)
      rw [hjn]
      simp [setRows, List.getElem?_set_self hlt]
    · have hjlt : j < n := by omega
      have h2 : (setRows re [n] (setRows re (List.range n) arr)).getD j [] =
          (setRows re (List.range n) arr).getD j [] := by
        simp [setRows, List.getElem?_set_ne (by omega : n ≠ j)]
      rw [h2]
      exact ih arr j hjlt (by omega)

lemma setRows_mem_length (re : Nat → Except PyErr (List Int)) (s : Nat) :
    ∀ (idxs : List Nat) (arr : List (List Int)),
      (∀ r ∈ arr, r.length = s) →
      (∀ i ∈ idxs, rowOkWithLen re s i = true) →
      ∀ r ∈ setRows re idxs arr, r.length = s := by
  intro idxs
  induction idxs with
  | nil => intro arr harr _; exact harr
  | cons i it ih =>
    intro arr harr hid
    rw [setRows_cons]
    apply ih
    · intro r hr
      rcases List.mem_or_eq_of_mem_set hr with hr2 | hr2
      · exact harr r hr2
      · obtain ⟨v, hv, hvl⟩ := rowOkWithLen_ok (hid i (by simp))
        rw [hr2]
        simp [rowValD, hv, hvl]
    · intro j hj
      exact hid j (by simp [hj])

lemma computeEntry_all_ok (re : Nat → Except PyErr (List Int)) (n s : Nat)
    (h : ∀ j, j < n → rowOkWithLen re s j = true) :
    computeEntry re n s =
      Except.ok (GMVEntry.table (setRows re (List.range n) (List.replicate n (List.replicate s 0)))) := by
  unfold computeEntry
  apply fillRows_all_ok
  intro i hi
  exact h i (List.mem_range.mp hi)

lemma computeEntry_key (re : Nat → Except PyErr (List Int)) (n s k : Nat) (key : String)
    (hk : k < n) (hker : re k = Except.error (PyErr.keyError key))
    (hpre : ∀ j, j < k → rowOkWithLen re s j = true) :
    computeEntry re n s = Except.ok GMVEntry.empty := by
  unfold computeEntry
  rw [range_split_at k n hk]
  apply fillRows_pre_key re s k key _ hker
  intro i hi
  exact hpre i (List.mem_range.mp hi)

lemma computeEntry_err (re : Nat → Except PyErr (List Int)) (n s k : Nat) (e : PyErr)
    (hk : k < n) (hker : re k = Except.error e) (hne : e.isKeyError = false)
    (hpre : ∀ j, j < k → rowOkWithLen re s j = true) :
    computeEntry re n s = Except.error e := by
  unfold computeEntry
  rw [range_split_at k n hk]
  apply fillRows_pre_err re s k e _ hker hne
  intro i hi
  exact hpre i (List.mem_range.mp hi)

lemma computeEntry_error_not_key {re : Nat → Except PyErr (List Int)} {n s : Nat} {e : PyErr}
    (h : computeEntry re n s = Except.error e) : e.isKeyError = false :=
  fillRows_error_not_key re s _ _ e h

lemma computeEntry_empty_key {re : Nat → Except PyErr (List Int)} {n s : Nat}
    (h : computeEntry re n s = Except.ok GMVEntry.empty) :
    ∃ j, j < n ∧ ∃ key, re j = Except.error (PyErr.keyError key) := by
  obtain ⟨j, hj, key, hkey⟩ := fillRows_empty_key re s _ _ h
  exact ⟨j, List.mem_range.mp hj, key, hkey⟩

lemma lookup_cons_ne {β : Type} (k a : String) (b : β) (es : List (String × β))
    (h : a ≠ k) : ((k, b) :: es).lookup a = es.lookup a := by
  rw [List.lookup_cons]
  have hb : (a == k) = false := beq_eq_false_iff_ne.mpr h
  rw [hb]

lemma pyBindOk {α β : Type} (a : α) (f : α → Except PyErr β) :
    (Except.ok a >>= f) = f a := rfl

lemma pyBindErr {α β : Type} (e : PyErr) (f : α → Except PyErr β) :
    ((Except.error e : Except PyErr α) >>= f) = Except.error e := rfl

lemma collectIMs_ok_lookup (re2 : String → Nat → Except PyErr (List Int)) (n s : Nat) :
    ∀ (imts : List String),
      (∀ i_m ∈ imts, exOk (computeEntry (re2 i_m) n s) = true) →
      ∃ l, collectIMs re2 n s imts = Except.ok l ∧
        ∀ i_m ∈ imts, l.lookup i_m = (computeEntry (re2 i_m) n s).toOption := by
  intro imts
  induction imts with
  | nil => intro _; exact ⟨[], rfl, by simp⟩
  | cons a it ih =>
    intro h
    obtain ⟨en, hen⟩ := exOk_ok (h a (by simp))
    obtain ⟨l, hl, hlk⟩ := ih (fun x hx => h x (by simp [hx]))
    refine ⟨(a, en) :: l, ?_, ?_⟩
    · simp only [collectIMs, hen, hl]
      rfl
    · intro im him
      by_cases hima : im = a
      · rw [hima]
        simp [hen, Except.toOption]
      · have him2 : im ∈ it := by
          rcases List.mem_cons.mp him with h2 | h2
          · exact absurd h2 hima
          · exact h2
        rw [lookup_cons_ne a im en l hima]
        exact hlk im him2

lemma collectGMVs_ok_lookup (re3 : String → String → Nat → Except PyErr (List Int))
    (imts : List String) (n s : Nat) :
    ∀ (gsims : List String),
      (∀ g ∈ gsims, ∀ i_m ∈ imts, exOk (computeEntry (re3 g i_m) n s) = true) →
      ∃ tbl, collectGMVs re3 imts n s gsims = Except.ok tbl ∧
        ∀ g ∈ gsims, ∀ i_m ∈ imts,
          lookup2 tbl g i_m = (computeEntry (re3 g i_m) n s).toOption := by
  intro gsims
  induction gsims with
  | nil => intro _; exact ⟨[], rfl, by simp⟩
  | cons a gt ih =>
    intro h
    obtain ⟨il, hil, hilk⟩ := collectIMs_ok_lookup (re3 a) n s imts (h a (by simp))
    obtain ⟨tbl, htbl, htblk⟩ := ih (fun g hg => h g (by simp [hg]))
    refine ⟨(a, il) :: tbl, ?_, ?_⟩
    · simp only [collectGMVs, hil, htbl]
      rfl
    · intro g hg i_m him
      by_cases hga : g = a
      · rw [hga]
        unfold lookup2
        simp only [List.lookup_cons_self]
        exact hilk i_m him
      · have hg2 : g ∈ gt := by
          rcases List.mem_cons.mp hg with h2 | h2
          · exact absurd h2 hga
          · exact h2
        unfold lookup2
        rw [lookup_cons_ne a g il tbl hga]
        exact htblk g hg2 i_m him

lemma gmv_ok_lookup (t : SigmaTrellis) (fs : FromStringFun) (gmm : GmmFun)
    (h : ∀ g ∈ t.gsims, ∀ i_m ∈ t.imts,
      exOk (computeEntry (rowEvalF fs gmm t g i_m) t.numRctx t.nsites) = true) :
    ∃ tbl, get_ground_motion_values t fs gmm = Except.ok tbl ∧
      ∀ g ∈ t.gsims, ∀ i_m ∈ t.imts,
        lookup2 tbl g i_m =
          (computeEntry (rowEvalF fs gmm t g i_m) t.numRctx t.nsites).toOption :=
  collectGMVs_ok_lookup _ t.imts t.numRctx t.nsites t.gsims h

lemma collectIMs_error_not_key (re2 : String → Nat → Except PyErr (List Int)) (n s : Nat) :
    ∀ (imts : List String) (e : PyErr),
      collectIMs re2 n s imts = Except.error e → e.isKeyError = false := by
  intro imts
  induction imts with
  | nil => intro e h; simp [collectIMs] at h
  | cons a it ih =>
    intro e h
    unfold collectIMs at h
    cases hen : computeEntry (re2 a) n s with
    | ok en =>
      rw [hen, pyBindOk] at h
      cases hr : collectIMs re2 n s it with
      | ok r => rw [hr, pyBindOk] at h; simp at h
      | error e2 =>
        rw [hr, pyBindErr] at h
        injection h with h2
        rw [← h2]
        exact ih e2 hr
    | error e2 =>
      rw [hen, pyBindErr] at h
      injection h with h2
      rw [← h2]
      exact computeEntry_error_not_key hen

lemma collectGMVs_error_not_key (re3 : String → String → Nat → Except PyErr (List Int))
    (imts : List String) (n s : Nat) :
    ∀ (gsims : List String) (e : PyErr),
      collectGMVs re3 imts n s gsims = Except.error e → e.isKeyError = false := by
  intro gsims
  induction gsims with
  | nil => intro e h; simp [collectGMVs] at h
  | cons a gt ih =>
    intro e h
    unfold collectGMVs at h
    cases hil : collectIMs (re3 a) n s imts with
    | ok il =>
      rw [hil, pyBindOk] at h
      cases hr : collectGMVs re3 imts n s gt with
      | ok r => rw [hr, pyBindOk] at h; simp at h
      | error e2 =>
        rw [hr, pyBindErr] at h
        injection h with h2
        rw [← h2]
        exact ih e2 hr
    | error e2 =>
      rw [hil, pyBindErr] at h
      injection h with h2
      rw [← h2]
      exact collectIMs_error_not_key (re3 a) n s imts e2 hil

lemma gmv_head_err (t : SigmaTrellis) (fs : FromStringFun) (gmm : GmmFun)
    (g i_m : String) (gs2 im2 : List String) (e : PyErr)
    (hg : t.gsims = g :: gs2) (him : t.imts = i_m :: im2)
    (h : computeEntry (rowEvalF fs gmm t g i_m) t.numRctx t.nsites = Except.error e) :
    get_ground_motion_values t fs gmm = Except.error e := by
  unfold get_ground_motion_values
  rw [hg, him]
  unfold collectGMVs collectIMs
  rw [h]
  rfl

lemma pyHead_ok {dv : List Int} (hne : dv ≠ []) : pyHead dv = Except.ok (dv.headD 0) := by
  obtain ⟨x, xt, hx⟩ := List.exists_cons_of_ne_nil hne
  rw [hx]
  rfl

lemma pyLast_ok {dv : List Int} (hne : dv ≠ []) : pyLast dv = Except.ok (dv.getLastD 0) := by
  cases hz : dv.getLast? with
  | none => exact absurd (List.getLast?_eq_none_iff.mp hz) hne
  | some z =>
    unfold pyLast
    rw [hz, List.getLastD_eq_getLast?, hz]
    rfl

lemma dlabelRes_ok {dt dl : String} (hdl : DISTANCE_LABEL_MAP.lookup dt = some dl) :
    dlabelRes dt = Except.ok dl := by
  unfold dlabelRes
  rw [hdl]

lemma set_labels_mean_ok (dt i_m : String) (dl u : String) (ax : AxisState)
    (hdl : DISTANCE_LABEL_MAP.lookup dt = some dl) (hu : unitsRes i_m = Except.ok u) :
    set_labels_mean dt i_m ax =
      Except.ok { ax with xlabel := some (dl ++ " (km)"),
                          ylabel := some ("Median " ++ i_m ++ " (" ++ u ++ ")") } := by
  unfold set_labels_mean
  rw [dlabelRes_ok hdl, pyBindOk, hu, pyBindOk]

lemma set_labels_sigma_ok (dt stddevs : String) (dl : String) (ax : AxisState)
    (hdl : DISTANCE_LABEL_MAP.lookup dt = some dl) :
    set_labels_sigma dt stddevs ax =
      Except.ok { ax with xlabel := some (dl ++ " (km)"),
                          ylabel := some (stddevs ++ " Std. Dev.") } := by
  unfold set_labels_sigma
  rw [dlabelRes_ok hdl, pyBindOk]

lemma stepMean_ok (pt dt i_m : String) (dv : List Int) (gmvs : GMVTable) (g : String)
    (ax : AxisState) (ys : List Int) (dl u : String)
    (hys : getEntryRow0 gmvs g i_m = Except.ok ys)
    (hlen : dv.length = ys.length) (hne : dv ≠ [])
    (hdl : DISTANCE_LABEL_MAP.lookup dt = some dl)
    (hu : unitsRes i_m = Except.ok u) :
    stepMean pt dt i_m dv gmvs g ax =
      Except.ok { lines := ax.lines ++ [{ kind := meanKindOf pt, xs := dv, ys := ys, label := g }],
                  grid := true, xlim := some (dv.headD 0, dv.getLastD 0),
                  xlabel := some (dl ++ " (km)"),
                  ylabel := some ("Median " ++ i_m ++ " (" ++ u ++ ")") } := by
  unfold stepMean
  rw [hys, pyBindOk]
  have hdraw : ∀ k : DrawKind, axDraw ax k dv ys g =
      Except.ok { ax with lines := ax.lines ++ [{ kind := k, xs := dv, ys := ys, label := g }] } := by
    intro k
    unfold axDraw
    rw [if_pos hlen]
  have hsl := fun ax2 => set_labels_mean_ok dt i_m dl u ax2 hdl hu
  by_cases hpt : pt = "semilogy"
  · rw [if_pos hpt]
    simp only [hdraw, pyBindOk, pyHead_ok hne, pyLast_ok hne, hsl]
    unfold meanKindOf
    rw [if_pos hpt]
  · rw [if_neg hpt]
    simp only [hdraw, pyBindOk, pyHead_ok hne, pyLast_ok hne, hsl]
    unfold meanKindOf
    rw [if_neg hpt]

lemma stepSigma_ok (pt dt sd i_m : String) (dv : List Int) (gmvs : GMVTable) (g : String)
    (ax : AxisState) (ys : List Int) (dl : String)
    (hys : getEntryRow0 gmvs g i_m = Except.ok ys)
    (hlen : dv.length = ys.length) (hne : dv ≠ [])
    (hdl : DISTANCE_LABEL_MAP.lookup dt = some dl) :
    stepSigma pt dt sd i_m dv gmvs g ax =
      Except.ok { lines := ax.lines ++ [{ kind := sigmaKindOf pt, xs := dv, ys := ys, label := g }],
                  grid := true, xlim := some (dv.headD 0, dv.getLastD 0),
                  xlabel := some (dl ++ " (km)"),
                  ylabel := some (sd ++ " Std. Dev.") } := by
  unfold stepSigma
  rw [hys, pyBindOk]
  have hdraw : ∀ k : DrawKind, axDraw ax k dv ys g =
      Except.ok { ax with lines := ax.lines ++ [{ kind := k, xs := dv, ys := ys, label := g }] } := by
    intro k
    unfold axDraw
    rw [if_pos hlen]
  have hsl := fun ax2 => set_labels_sigma_ok dt sd dl ax2 hdl
  by_cases hpt : pt = "loglog"
  · rw [if_pos hpt]
    simp only [hdraw, pyBindOk, pyHead_ok hne, pyLast_ok hne, hsl]
    unfold sigmaKindOf
    rw [if_pos hpt]
  · rw [if_neg hpt]
    simp only [hdraw, pyBindOk, pyHead_ok hne, pyLast_ok hne, hsl]
    unfold sigmaKindOf
    rw [if_neg hpt]

lemma buildLoop_cons_ok (step : String → AxisState → Except PyErr AxisState)
    (g : String) (rest labels : List String) (ax ax1 : AxisState)
    (h : step g ax = Except.ok ax1) :
    buildLoop step (g :: rest) labels ax = buildLoop step rest (labels ++ [g]) ax1 := by
  conv_lhs => unfold buildLoop
  rw [h]

lemma buildLoop_cons_err (step : String → AxisState → Except PyErr AxisState)
    (g : String) (rest labels : List String) (ax : AxisState) (e : PyErr)
    (h : step g ax = Except.error e) :
    buildLoop step (g :: rest) labels ax = Except.error e := by
  conv_lhs => unfold buildLoop
  rw [h]

lemma axAfter_step (k : DrawKind) (dv : List Int) (yrow : String → List Int)
    (xr : Int × Int) (xl yl : String) (g : String) (rest : List String) (ax : AxisState) :
    axAfter k dv yrow xr xl yl rest
      { lines := ax.lines ++ [{ kind := k, xs := dv, ys := yrow g, label := g }],
        grid := true, xlim := some xr, xlabel := some xl, ylabel := some yl } =
    axAfter k dv yrow xr xl yl (g :: rest) ax := by
  cases rest with
  | nil => simp [axAfter]
  | cons r rs => simp [axAfter]

lemma buildLoopMean_ok (pt dt i_m : String) (dv : List Int) (gmvs : GMVTable)
    (dl u : String)
    (hne : dv ≠ []) (hdl : DISTANCE_LABEL_MAP.lookup dt = some dl)
    (hu : unitsRes i_m = Except.ok u) :
    ∀ (names : List String) (labels : List String) (ax : AxisState),
      (∀ g ∈ names, gOK gmvs i_m dv g = true) →
      buildLoop (stepMean pt dt i_m dv gmvs) names labels ax =
        Except.ok (labels ++ names,
          axAfter (meanKindOf pt) dv (row0D gmvs i_m) (dv.headD 0, dv.getLastD 0)
            (dl ++ " (km)") ("Median " ++ i_m ++ " (" ++ u ++ ")") names ax) := by
  intro names
  induction names with
  | nil => intro labels ax _; simp [buildLoop, axAfter]
  | cons g rest ih =>
    intro labels ax hrow
    have hg := hrow g (by simp)
    unfold gOK at hg
    cases hys : getEntryRow0 gmvs g i_m with
    | ok ys =>
      rw [hys] at hg
      have hlen : dv.length = ys.length := by simpa using hg
      have hstep := stepMean_ok pt dt i_m dv gmvs g ax ys dl u hys hlen hne hdl hu
      rw [buildLoop_cons_ok _ g rest labels ax _ hstep]
      have hyr : row0D gmvs i_m g = ys := by simp [row0D, hys]
      rw [ih (labels ++ [g]) _ (fun x hx => hrow x (by simp [hx]))]
      rw [← hyr] at hstep ⊢
      rw [axAfter_step]
      simp
    | error e => rw [hys] at hg; simp at hg

lemma buildLoopSigma_ok (pt dt sd i_m : String) (dv : List Int) (gmvs : GMVTable)
    (dl : String)
    (hne : dv ≠ []) (hdl : DISTANCE_LABEL_MAP.lookup dt = some dl) :
    ∀ (names : List String) (labels : List String) (ax : AxisState),
      (∀ g ∈ names, gOK gmvs i_m dv g = true) →
      buildLoop (stepSigma pt dt sd i_m dv gmvs) names labels ax =
        Except.ok (labels ++ names,
          axAfter (sigmaKindOf pt) dv (row0D gmvs i_m) (dv.headD 0, dv.getLastD 0)
            (dl ++ " (km)") (sd ++ " Std. Dev.") names ax) := by
  intro names
  induction names with
  | nil => intro labels ax _; simp [buildLoop, axAfter]
  | cons g rest ih =>
    intro labels ax hrow
    have hg := hrow g (by simp)
    unfold gOK at hg
    cases hys : getEntryRow0 gmvs g i_m with
    | ok ys =>
      rw [hys] at hg
      have hlen : dv.length = ys.length := by simpa using hg
      have hstep := stepSigma_ok pt dt sd i_m dv gmvs g ax ys dl hys hlen hne hdl
      rw [buildLoop_cons_ok _ g rest labels ax _ hstep]
      have hyr : row0D gmvs i_m g = ys := by simp [row0D, hys]
      rw [ih (labels ++ [g]) _ (fun x hx => hrow x (by simp [hx]))]
      rw [← hyr] at hstep ⊢
      rw [axAfter_step]
      simp
    | error e => rw [hys] at hg; simp at hg

lemma buildLoop_error_step (step : String → AxisState → Except PyErr AxisState) :
    ∀ (names labels : List String) (ax : AxisState) (e : PyErr),
      buildLoop step names labels ax = Except.error e →
      ∃ g ax2, g ∈ names ∧ step g ax2 = Except.error e := by
  intro names
  induction names with
  | nil => intro labels ax e h; simp [buildLoop] at h
  | cons g rest ih =>
    intro labels ax e h
    cases hs : step g ax with
    | ok ax1 =>
      rw [buildLoop_cons_ok _ g rest labels ax _ hs] at h
      obtain ⟨g2, ax2, hg2, h2⟩ := ih _ _ _ h
      exact ⟨g2, ax2, by simp [hg2], h2⟩
    | error e2 =>
      rw [buildLoop_cons_err _ g rest labels ax _ hs] at h
      injection h with h2
      exact ⟨g, ax, by simp, by rw [hs, h2]⟩

lemma bind_ne_err {α β : Type} (m : Except PyErr α) (f : α → Except PyErr β) (e0 : PyErr)
    (hm : m ≠ Except.error e0) (hf : ∀ a, (f a) ≠ Except.error e0) :
    (m >>= f) ≠ Except.error e0 := by
  cases m with
  | ok a => rw [pyBindOk]; exact hf a
  | error e =>
    rw [pyBindErr]
    intro hcontra
    injection hcontra with h2
    exact hm (by rw [h2])

lemma getEntryRow0_ne_assert (gmvs : GMVTable) (g i_m : String) :
    getEntryRow0 gmvs g i_m ≠ Except.error PyErr.assertionError := by
  unfold getEntryRow0
  repeat' split
  all_goals simp

lemma axDraw_ne_assert (ax : AxisState) (k : DrawKind) (xs ys : List Int) (lbl : String) :
    axDraw ax k xs ys lbl ≠ Except.error PyErr.assertionError := by
  unfold axDraw
  split
  all_goals simp

lemma pyHead_ne_assert (dv : List Int) : pyHead dv ≠ Except.error PyErr.assertionError := by
  unfold pyHead
  split
  all_goals simp

lemma pyLast_ne_assert (dv : List Int) : pyLast dv ≠ Except.error PyErr.assertionError := by
  unfold pyLast
  split
  all_goals simp

lemma dlabelRes_ne_assert (dt : String) : dlabelRes dt ≠ Except.error PyErr.assertionError := by
  unfold dlabelRes
  split
  all_goals simp

lemma unitsRes_ne_assert (i_m : String) : unitsRes i_m ≠ Except.error PyErr.assertionError := by
  unfold unitsRes
  repeat' split
  all_goals simp

lemma set_labels_mean_ne_assert (dt i_m : String) (ax : AxisState) :
    set_labels_mean dt i_m ax ≠ Except.error PyErr.assertionError := by
  unfold set_labels_mean
  apply bind_ne_err _ _ _ (dlabelRes_ne_assert dt)
  intro dl
  apply bind_ne_err _ _ _ (unitsRes_ne_assert i_m)
  intro u
  simp

lemma set_labels_sigma_ne_assert (dt sd : String) (ax : AxisState) :
    set_labels_sigma dt sd ax ≠ Except.error PyErr.assertionError := by
  unfold set_labels_sigma
  apply bind_ne_err _ _ _ (dlabelRes_ne_assert dt)
  intro dl
  simp

lemma stepMean_ne_assert (pt dt i_m : String) (dv : List Int) (gmvs : GMVTable)
    (g : String) (ax : AxisState) :
    stepMean pt dt i_m dv gmvs g ax ≠ Except.error PyErr.assertionError := by
  unfold stepMean
  apply bind_ne_err _ _ _ (getEntryRow0_ne_assert gmvs g i_m)
  intro ys
  dsimp only
  split <;>
    (apply bind_ne_err _ _ _ (axDraw_ne_assert _ _ _ _ _)
     intro ax1
     apply bind_ne_err _ _ _ (pyHead_ne_assert dv)
     intro minx
     apply bind_ne_err _ _ _ (pyLast_ne_assert dv)
     intro maxx
     apply set_labels_mean_ne_assert)

lemma stepSigma_ne_assert (pt dt sd i_m : String) (dv : List Int) (gmvs : GMVTable)
    (g : String) (ax : AxisState) :
    stepSigma pt dt sd i_m dv gmvs g ax ≠ Except.error PyErr.assertionError := by
  unfold stepSigma
  apply bind_ne_err _ _ _ (getEntryRow0_ne_assert gmvs g i_m)
  intro ys
  dsimp only
  split <;>
    (apply bind_ne_err _ _ _ (axDraw_ne_assert _ _ _ _ _)
     intro ax1
     apply bind_ne_err _ _ _ (pyHead_ne_assert dv)
     intro minx
     apply bind_ne_err _ _ _ (pyLast_ne_assert dv)
     intro maxx
     apply set_labels_sigma_ne_assert)

lemma buildLoop_ne_assert (step : String → AxisState → Except PyErr AxisState)
    (hstep : ∀ g ax, step g ax ≠ Except.error PyErr.assertionError)
    (names labels : List String) (ax : AxisState) :
    buildLoop step names labels ax ≠ Except.error PyErr.assertionError := by
  intro h
  obtain ⟨g, ax2, _, h2⟩ := buildLoop_error_step step names labels ax _ h
  exact hstep g ax2 h2

lemma buildLoop_congr (step1 step2 : String → AxisState → Except PyErr AxisState) :
    ∀ (names : List String), (∀ g ∈ names, ∀ ax, step1 g ax = step2 g ax) →
      ∀ (labels : List String) (ax : AxisState),
        buildLoop step1 names labels ax = buildLoop step2 names labels ax := by
  intro names
  induction names with
  | nil => intro _ labels ax; rfl
  | cons g rest ih =>
    intro h labels ax
    have hg := h g (by simp) ax
    cases hs : step2 g ax with
    | ok ax1 =>
      rw [buildLoop_cons_ok step1 g rest labels ax ax1 (by rw [hg, hs]),
          buildLoop_cons_ok step2 g rest labels ax ax1 hs]
      exact ih (fun x hx ax2 => h x (by simp [hx]) ax2) _ _
    | error e =>
      rw [buildLoop_cons_err step1 g rest labels ax e (by rw [hg, hs]),
          buildLoop_cons_err step2 g rest labels ax e hs]

lemma stepMean_congr (pt dt i_m : String) (dv : List Int) (gmvs gmvs2 : GMVTable)
    (g : String) (h : getEntryRow0 gmvs2 g i_m = getEntryRow0 gmvs g i_m) (ax : AxisState) :
    stepMean pt dt i_m dv gmvs2 g ax = stepMean pt dt i_m dv gmvs g ax := by
  unfold stepMean
  rw [h]

lemma stepSigma_congr (pt dt sd i_m : String) (dv : List Int) (gmvs gmvs2 : GMVTable)
    (g : String) (h : getEntryRow0 gmvs2 g i_m = getEntryRow0 gmvs g i_m) (ax : AxisState) :
    stepSigma pt dt sd i_m dv gmvs2 g ax = stepSigma pt dt sd i_m dv gmvs g ax := by
  unfold stepSigma
  rw [h]

lemma distAttr_ok {t : SigmaTrellis} {dv : List Int}
    (h : t.dctx.lookup t.distance_type = some dv) : distAttr t = Except.ok dv := by
  unfold distAttr
  rw [h]

lemma distAttr_err {t : SigmaTrellis}
    (h : t.dctx.lookup t.distance_type = none) :
    distAttr t = Except.error (PyErr.attributeError t.distance_type) := by
  unfold distAttr
  rw [h]

lemma build_plot_mean_eq (t : SigmaTrellis) (gmvs : GMVTable) (i_m : String) (dv : List Int)
    (hdv : t.dctx.lookup t.distance_type = some dv)
    (hpt : t.plot_type = "loglog" ∨ t.plot_type = "semilogy") :
    build_plot_mean t gmvs i_m =
      buildLoop (stepMean t.plot_type t.distance_type i_m dv gmvs) t.gsims [] AxisState.start := by
  unfold build_plot_mean
  rw [distAttr_ok hdv, pyBindOk, if_pos hpt]

lemma build_plot_sigma_eq (t : SigmaTrellis) (gmvs : GMVTable) (i_m : String) (dv : List Int)
    (hdv : t.dctx.lookup t.distance_type = some dv)
    (hpt : t.plot_type = "loglog" ∨ t.plot_type = "semilogy") :
    build_plot_sigma t gmvs i_m =
      buildLoop (stepSigma t.plot_type t.distance_type t.stddevs i_m dv gmvs) t.gsims [] AxisState.start := by
  unfold build_plot_sigma
  rw [distAttr_ok hdv, pyBindOk, if_pos hpt]

lemma build_plot_mean_assert (t : SigmaTrellis) (gmvs : GMVTable) (i_m : String) (dv : List Int)
    (hdv : t.dctx.lookup t.distance_type = some dv)
    (hpt : ¬(t.plot_type = "loglog" ∨ t.plot_type = "semilogy")) :
    build_plot_mean t gmvs i_m = Except.error PyErr.assertionError := by
  unfold build_plot_mean
  rw [distAttr_ok hdv, pyBindOk, if_neg hpt]

lemma build_plot_sigma_assert (t : SigmaTrellis) (gmvs : GMVTable) (i_m : String) (dv : List Int)
    (hdv : t.dctx.lookup t.distance_type = some dv)
    (hpt : ¬(t.plot_type = "loglog" ∨ t.plot_type = "semilogy")) :
    build_plot_sigma t gmvs i_m = Except.error PyErr.assertionError := by
  unfold build_plot_sigma
  rw [distAttr_ok hdv, pyBindOk, if_neg hpt]

lemma build_plot_mean_attr_err (t : SigmaTrellis) (gmvs : GMVTable) (i_m : String)
    (hdv : t.dctx.lookup t.distance_type = none) :
    build_plot_mean t gmvs i_m = Except.error (PyErr.attributeError t.distance_type) := by
  unfold build_plot_mean
  rw [distAttr_err hdv, pyBindErr]

lemma build_plot_sigma_attr_err (t : SigmaTrellis) (gmvs : GMVTable) (i_m : String)
    (hdv : t.dctx.lookup t.distance_type = none) :
    build_plot_sigma t gmvs i_m = Except.error (PyErr.attributeError t.distance_type) := by
  unfold build_plot_sigma
  rw [distAttr_err hdv, pyBindErr]

lemma axAfter_lines_kinds (k : DrawKind) (dv : List Int) (yrow : String → List Int)
    (xr : Int × Int) (xl yl : String) (names : List String) :
    (axAfter k dv yrow xr xl yl names AxisState.start).lines.map Line.kind =
      List.replicate names.length k := by
  cases names with
  | nil => simp [axAfter, AxisState.start]
  | cons g rest =>
    simp only [axAfter, AxisState.start, List.nil_append, List.map_map]
    exact List.map_const' (g :: rest) k

lemma axAfter_lines_ys (k : DrawKind) (dv : List Int) (yrow : String → List Int)
    (xr : Int × Int) (xl yl : String) (names : List String) :
    (axAfter k dv yrow xr xl yl names AxisState.start).lines.map Line.ys =
      names.map yrow := by
  cases names with
  | nil => simp [axAfter, AxisState.start]
  | cons g rest =>
    simp only [axAfter, AxisState.start, List.nil_append, List.map_map]
    rfl

lemma axAfter_xlim_of_ne (k : DrawKind) (dv : List Int) (yrow : String → List Int)
    (xr : Int × Int) (xl yl : String) (names : List String) (ax : AxisState)
    (hne : names ≠ []) :
    (axAfter k dv yrow xr xl yl names ax).xlim = some xr := by
  cases names with
  | nil => exact absurd rfl hne
  | cons g rest => rfl

lemma axAfter_xlabel_of_ne (k : DrawKind) (dv : List Int) (yrow : String → List Int)
    (xr : Int × Int) (xl yl : String) (names : List String) (ax : AxisState)
    (hne : names ≠ []) :
    (axAfter k dv yrow xr xl yl names ax).xlabel = some xl := by
  cases names with
  | nil => exact absurd rfl hne
  | cons g rest => rfl

lemma axAfter_ylabel_of_ne (k : DrawKind) (dv : List Int) (yrow : String → List Int)
    (xr : Int × Int) (xl yl : String) (names : List String) (ax : AxisState)
    (hne : names ≠ []) :
    (axAfter k dv yrow xr xl yl names ax).ylabel = some yl := by
  cases names with
  | nil => exact absurd rfl hne
  | cons g rest => rfl

/-- C3: the mean renderer draws semi-log-y for the flag value `"semilogy"`
and log-log for `"loglog"`, while the standard-deviation renderer draws
semi-log-x for `"loglog"` and linearly for `"semilogy"`: the two variants
reuse the same two flag values with opposite scale meanings. -/
theorem C3_scale_flag_interpretation (t : SigmaTrellis) (gmvs : GMVTable) (i_m : String)
    (dv : List Int) (dl u : String)
    (hdv : t.dctx.lookup t.distance_type = some dv) (hne : dv ≠ [])
    (hdl : DISTANCE_LABEL_MAP.lookup t.distance_type = some dl)
    (hu : unitsRes i_m = Except.ok u)
    (hrow : ∀ g ∈ t.gsims, gOK gmvs i_m dv g = true) :
    (t.plot_type = "semilogy" →
      lineKinds (build_plot_mean t gmvs i_m) = List.replicate t.gsims.length DrawKind.semilogy ∧
      lineKinds (build_plot_sigma t gmvs i_m) = List.replicate t.gsims.length DrawKind.linear) ∧
    (t.plot_type = "loglog" →
      lineKinds (build_plot_mean t gmvs i_m) = List.replicate t.gsims.length DrawKind.loglog ∧
      lineKinds (build_plot_sigma t gmvs i_m) = List.replicate t.gsims.length DrawKind.semilogx) := by
  constructor
  · intro hpt
    have hor : t.plot_type = "loglog" ∨ t.plot_type = "semilogy" := Or.inr hpt
    rw [build_plot_mean_eq t gmvs i_m dv hdv hor, build_plot_sigma_eq t gmvs i_m dv hdv hor,
        buildLoopMean_ok t.plot_type t.distance_type i_m dv gmvs dl u hne hdl hu t.gsims [] AxisState.start hrow,
        buildLoopSigma_ok t.plot_type t.distance_type t.stddevs i_m dv gmvs dl hne hdl t.gsims [] AxisState.start hrow]
    simp only [lineKinds]
    rw [axAfter_lines_kinds, axAfter_lines_kinds]
    unfold meanKindOf sigmaKindOf
    rw [if_pos hpt, if_neg (by rw [hpt]; decide)]
    exact ⟨rfl, rfl⟩
  · intro hpt
    have hor : t.plot_type = "loglog" ∨ t.plot_type = "semilogy" := Or.inl hpt
    rw [build_plot_mean_eq t gmvs i_m dv hdv hor, build_plot_sigma_eq t gmvs i_m dv hdv hor,
        buildLoopMean_ok t.plot_type t.distance_type i_m dv gmvs dl u hne hdl hu t.gsims [] AxisState.start hrow,
        buildLoopSigma_ok t.plot_type t.distance_type t.stddevs i_m dv gmvs dl hne hdl t.gsims [] AxisState.start hrow]
    simp only [lineKinds]
    rw [axAfter_lines_kinds, axAfter_lines_kinds]
    unfold meanKindOf sigmaKindOf
    rw [if_neg (by rw [hpt]; decide), if_pos hpt]
    exact ⟨rfl, rfl⟩

/-- C4: with plot-scale neither loglog nor semilogy, both renderer variants
fail with the assertion before any line is drawn; with a recognized value the
assertion never fires. -/
theorem C4_plot_type_assertion (t : SigmaTrellis) (gmvs : GMVTable) (i_m : String)
    (hdv : (t.dctx.lookup t.distance_type).isSome = true) :
    (t.plot_type ≠ "loglog" ∧ t.plot_type ≠ "semilogy" →
      build_plot_mean t gmvs i_m = Except.error PyErr.assertionError ∧
      build_plot_sigma t gmvs i_m = Except.error PyErr.assertionError ∧
      lineKinds (build_plot_mean t gmvs i_m) = [] ∧
      lineKinds (build_plot_sigma t gmvs i_m) = []) ∧
    (t.plot_type = "loglog" ∨ t.plot_type = "semilogy" →
      build_plot_mean t gmvs i_m ≠ Except.error PyErr.assertionError ∧
      build_plot_sigma t gmvs i_m ≠ Except.error PyErr.assertionError) := by
  obtain ⟨dv, hdvs⟩ : ∃ dv, t.dctx.lookup t.distance_type = some dv := by
    cases h : t.dctx.lookup t.distance_type with
    | some v => exact ⟨v, rfl⟩
    | none => rw [h] at hdv; simp at hdv
  constructor
  · intro ⟨h1, h2⟩
    have hno : ¬(t.plot_type = "loglog" ∨ t.plot_type = "semilogy") := by
      intro hc
      rcases hc with hc | hc
      · exact h1 hc
      · exact h2 hc
    have hm := build_plot_mean_assert t gmvs i_m dv hdvs hno
    have hs := build_plot_sigma_assert t gmvs i_m dv hdvs hno
    refine ⟨hm, hs, ?_, ?_⟩
    · rw [hm]; rfl
    · rw [hs]; rfl
  · intro hpt
    rw [build_plot_mean_eq t gmvs i_m dv hdvs hpt, build_plot_sigma_eq t gmvs i_m dv hdvs hpt]
    constructor
    · exact buildLoop_ne_assert _ (fun g ax => stepMean_ne_assert _ _ _ _ _ g ax) _ _ _
    · exact buildLoop_ne_assert _ (fun g ax => stepSigma_ne_assert _ _ _ _ _ _ g ax) _ _ _

def trellisC4 : SigmaTrellis :=
  { gsims := ["GMPEAlpha"], imts := ["PGA"], numRctx := 1, nsites := 2,
    stddevs := "Total", plot_type := "linear", distance_type := "rjb",
    dctx := [("rjb", [1, 10])] }

/-- C4 witness: at the plot-scale string "linear", both variants fail with
the assertion and draw nothing. -/
theorem C4_plot_type_assertion_witness :
    build_plot_mean trellisC4 [] ("PGA") = Except.error PyErr.assertionError ∧
    build_plot_sigma trellisC4 [] ("PGA") = Except.error PyErr.assertionError ∧
    lineKinds (build_plot_mean trellisC4 [] ("PGA")) = [] ∧
    lineKinds (build_plot_sigma trellisC4 [] ("PGA")) = [] :=
  (C4_plot_type_assertion trellisC4 [] ("PGA") (by decide)).1 (by decide)

/-- C7 (amended): after a successful rendering call with at least one GMPE,
the axis x-limits are the FIRST and LAST values of the distance array read
from the distance context (which are the minimum and maximum only when that
array is sorted ascending). -/
theorem C7_xlim_first_last (t : SigmaTrellis) (gmvs : GMVTable) (i_m : String)
    (dv : List Int) (dl u : String)
    (hdv : t.dctx.lookup t.distance_type = some dv) (hne : dv ≠ [])
    (hdl : DISTANCE_LABEL_MAP.lookup t.distance_type = some dl)
    (hu : unitsRes i_m = Except.ok u)
    (hrow : ∀ g ∈ t.gsims, gOK gmvs i_m dv g = true)
    (hg : t.gsims ≠ [])
    (hpt : t.plot_type = "loglog" ∨ t.plot_type = "semilogy") :
    axXlim (build_plot_mean t gmvs i_m) = some (dv.headD 0, dv.getLastD 0) ∧
    axXlim (build_plot_sigma t gmvs i_m) = some (dv.headD 0, dv.getLastD 0) := by
  rw [build_plot_mean_eq t gmvs i_m dv hdv hpt, build_plot_sigma_eq t gmvs i_m dv hdv hpt,
      buildLoopMean_ok t.plot_type t.distance_type i_m dv gmvs dl u hne hdl hu t.gsims [] AxisState.start hrow,
      buildLoopSigma_ok t.plot_type t.distance_type t.stddevs i_m dv gmvs dl hne hdl t.gsims [] AxisState.start hrow]
  simp only [axXlim]
  rw [axAfter_xlim_of_ne _ _ _ _ _ _ _ _ hg, axAfter_xlim_of_ne _ _ _ _ _ _ _ _ hg]
  exact ⟨rfl, rfl⟩

def trellisC7 : SigmaTrellis :=
  { gsims := ["GMPEAlpha"], imts := ["PGA"], numRctx := 1, nsites := 2,
    stddevs := "Total", plot_type := "semilogy", distance_type := "rjb",
    dctx := [("rjb", [10, 1])] }

def gmvsC7 : GMVTable := [("GMPEAlpha", [("PGA", GMVEntry.table [[5, 6]])])]

/-- C7 counterexample: with the unsorted distance array [10, 1] the rendering
call leaves x-limits (10, 1) — first and last value — while the minimum and
maximum of the distance values are 1 and 10, so the limits are not
[min, max]. -/
theorem C7_counterexample :
    axXlim (build_plot_mean trellisC7 gmvsC7 ("PGA")) = some (10, 1) ∧
    [(10 : Int), 1].min? = some 1 ∧
    [(10 : Int), 1].max? = some 10 ∧
    (some ((10 : Int), (1 : Int)) ≠ some ((1 : Int), (10 : Int))) := by
  refine ⟨rfl, by decide, by decide, by decide⟩

/-- C7 witness: the amended statement evaluated on a concrete rendering
call. -/
theorem C7_xlim_first_last_witness :
    axXlim (build_plot_mean trellisC7 gmvsC7 ("PGA")) = some (10, 1) ∧
    axXlim (build_plot_sigma trellisC7 gmvsC7 ("PGA")) = some (10, 1) :=
  C7_xlim_first_last trellisC7 gmvsC7 ("PGA") [10, 1] ("Joyner-Boore Dist.") ("g")
    rfl (by decide) rfl rfl (by decide) (by decide) (Or.inr rfl)

/-- C8: after a successful rendering call the x-label is
"<distance display name> (km)" from the static distance-label table; the mean
y-label is "Median <IM> (<unit>)" with the unit from the static unit table
(the SA unit whenever the IM string contains "SA("); the standard-deviation
y-label is "<statistic name> Std. Dev.". -/
theorem C8_label_policy (t : SigmaTrellis) (gmvs : GMVTable) (i_m : String)
    (dv : List Int) (dl u : String)
    (hdv : t.dctx.lookup t.distance_type = some dv) (hne : dv ≠ [])
    (hdl : DISTANCE_LABEL_MAP.lookup t.distance_type = some dl)
    (hu : unitsRes i_m = Except.ok u)
    (hrow : ∀ g ∈ t.gsims, gOK gmvs i_m dv g = true)
    (hg : t.gsims ≠ [])
    (hpt : t.plot_type = "loglog" ∨ t.plot_type = "semilogy") :
    axXlabel (build_plot_mean t gmvs i_m) = some (dl ++ " (km)") ∧
    axXlabel (build_plot_sigma t gmvs i_m) = some (dl ++ " (km)") ∧
    axYlabel (build_plot_mean t gmvs i_m) = some ("Median " ++ i_m ++ " (" ++ u ++ ")") ∧
    axYlabel (build_plot_sigma t gmvs i_m) = some (t.stddevs ++ " Std. Dev.") ∧
    (strContains i_m ("SA(") = true → PLOT_UNITS.lookup ("SA") = some u) ∧
    (strContains i_m ("SA(") = false → PLOT_UNITS.lookup i_m = some u) := by
  rw [build_plot_mean_eq t gmvs i_m dv hdv hpt, build_plot_sigma_eq t gmvs i_m dv hdv hpt,
      buildLoopMean_ok t.plot_type t.distance_type i_m dv gmvs dl u hne hdl hu t.gsims [] AxisState.start hrow,
      buildLoopSigma_ok t.plot_type t.distance_type t.stddevs i_m dv gmvs dl hne hdl t.gsims [] AxisState.start hrow]
  simp only [axXlabel, axYlabel]
  rw [axAfter_xlabel_of_ne _ _ _ _ _ _ _ _ hg, axAfter_xlabel_of_ne _ _ _ _ _ _ _ _ hg,
      axAfter_ylabel_of_ne _ _ _ _ _ _ _ _ hg, axAfter_ylabel_of_ne _ _ _ _ _ _ _ _ hg]
  refine ⟨rfl, rfl, rfl, rfl, ?_, ?_⟩
  · intro hsa
    unfold unitsRes at hu
    rw [if_pos hsa] at hu
    cases hL : PLOT_UNITS.lookup ("SA") with
    | some u2 =>
      rw [hL] at hu
      injection hu with h2
      rw [h2]
    | none => rw [hL] at hu; cases hu
  · intro hsa
    unfold unitsRes at hu
    rw [if_neg (by rw [hsa]; decide)] at hu
    cases hL : PLOT_UNITS.lookup i_m with
    | some u2 =>
      rw [hL] at hu
      injection hu with h2
      rw [h2]
    | none => rw [hL] at hu; cases hu

def trellisC8 : SigmaTrellis :=
  { gsims := ["GMPEAlpha"], imts := ["SA(0.2)"], numRctx := 1, nsites := 2,
    stddevs := "Total", plot_type := "semilogy", distance_type := "rjb",
    dctx := [("rjb", [1, 10])] }

def gmvsC8 : GMVTable := [("GMPEAlpha", [("SA(0.2)", GMVEntry.table [[5, 6]])])]

/-- C8 witness: the label policy evaluated on a concrete rendering call with
the IM string "SA(0.2)", exercising the SA-unit fallback. -/
theorem C8_label_policy_witness :
    axXlabel (build_plot_mean trellisC8 gmvsC8 ("SA(0.2)")) = some ("Joyner-Boore Dist. (km)") ∧
    axXlabel (build_plot_sigma trellisC8 gmvsC8 ("SA(0.2)")) = some ("Joyner-Boore Dist. (km)") ∧
    axYlabel (build_plot_mean trellisC8 gmvsC8 ("SA(0.2)")) = some ("Median SA(0.2) (g)") ∧
    axYlabel (build_plot_sigma trellisC8 gmvsC8 ("SA(0.2)")) = some ("Total Std. Dev.") ∧
    PLOT_UNITS.lookup ("SA") = some ("g") := by
  have h := C8_label_policy trellisC8 gmvsC8 ("SA(0.2)") [1, 10] ("Joyner-Boore Dist.") ("g")
    rfl (by decide) rfl rfl (by decide) (by decide) (Or.inr rfl)
  exact ⟨h.1, h.2.1, h.2.2.1, h.2.2.2.1, h.2.2.2.2.1 (by decide)⟩

lemma dlabelRes_err {dt : String} (h5 : DISTANCE_LABEL_MAP.lookup dt = none) :
    dlabelRes dt = Except.error (PyErr.keyError dt) := by
  unfold dlabelRes
  rw [h5]

lemma set_labels_mean_key_err (dt i_m : String) (ax : AxisState)
    (h5 : DISTANCE_LABEL_MAP.lookup dt = none) :
    set_labels_mean dt i_m ax = Except.error (PyErr.keyError dt) := by
  unfold set_labels_mean
  rw [dlabelRes_err h5, pyBindErr]

lemma set_labels_sigma_key_err (dt sd : String) (ax : AxisState)
    (h5 : DISTANCE_LABEL_MAP.lookup dt = none) :
    set_labels_sigma dt sd ax = Except.error (PyErr.keyError dt) := by
  unfold set_labels_sigma
  rw [dlabelRes_err h5, pyBindErr]

lemma stepMean_dl_err (pt dt i_m : String) (dv : List Int) (gmvs : GMVTable) (g : String)
    (ax : AxisState) (ys : List Int)
    (hys : getEntryRow0 gmvs g i_m = Except.ok ys)
    (hlen : dv.length = ys.length) (hne : dv ≠ [])
    (h5 : DISTANCE_LABEL_MAP.lookup dt = none) :
    stepMean pt dt i_m dv gmvs g ax = Except.error (PyErr.keyError dt) := by
  unfold stepMean
  rw [hys, pyBindOk]
  have hdraw : ∀ k : DrawKind, axDraw ax k dv ys g =
      Except.ok { ax with lines := ax.lines ++ [{ kind := k, xs := dv, ys := ys, label := g }] } := by
    intro k
    unfold axDraw
    rw [if_pos hlen]
  have hsl := fun ax2 => set_labels_mean_key_err dt i_m ax2 h5
  dsimp only
  split <;> simp only [hdraw, pyBindOk, pyHead_ok hne, pyLast_ok hne, hsl]

lemma stepSigma_dl_err (pt dt sd i_m : String) (dv : List Int) (gmvs : GMVTable) (g : String)
    (ax : AxisState) (ys : List Int)
    (hys : getEntryRow0 gmvs g i_m = Except.ok ys)
    (hlen : dv.length = ys.length) (hne : dv ≠ [])
    (h5 : DISTANCE_LABEL_MAP.lookup dt = none) :
    stepSigma pt dt sd i_m dv gmvs g ax = Except.error (PyErr.keyError dt) := by
  unfold stepSigma
  rw [hys, pyBindOk]
  have hdraw : ∀ k : DrawKind, axDraw ax k dv ys g =
      Except.ok { ax with lines := ax.lines ++ [{ kind := k, xs := dv, ys := ys, label := g }] } := by
    intro k
    unfold axDraw
    rw [if_pos hlen]
  have hsl := fun ax2 => set_labels_sigma_key_err dt sd ax2 h5
  dsimp only
  split <;> simp only [hdraw, pyBindOk, pyHead_ok hne, pyLast_ok hne, hsl]

/-- C9 (amended): for a distance type outside the five recognized metrics,
rendering fails with a lookup error — but where it arises depends on the
distance context: when the context does not provide the metric, the failure
is an attribute-lookup error at the distance-value read (line 73/164),
BEFORE label assignment; only when the context does provide the metric (and
at least one GMPE is drawn) does the failure arise at label-assignment time
as the `KeyError` of the distance-label-table lookup. -/
theorem C9_unrecognized_distance_type (t : SigmaTrellis) (gmvs : GMVTable) (i_m : String)
    (h5 : DISTANCE_LABEL_MAP.lookup t.distance_type = none) :
    (t.dctx.lookup t.distance_type = none →
      build_plot_mean t gmvs i_m = Except.error (PyErr.attributeError t.distance_type) ∧
      build_plot_sigma t gmvs i_m = Except.error (PyErr.attributeError t.distance_type)) ∧
    (∀ (dv : List Int) (g : String) (rest : List String),
      t.dctx.lookup t.distance_type = some dv → t.gsims = g :: rest →
      t.plot_type = "semilogy" → gOK gmvs i_m dv g = true → dv ≠ [] →
      build_plot_mean t gmvs i_m = Except.error (PyErr.keyError t.distance_type) ∧
      build_plot_sigma t gmvs i_m = Except.error (PyErr.keyError t.distance_type)) := by
  constructor
  · intro hnone
    exact ⟨build_plot_mean_attr_err t gmvs i_m hnone, build_plot_sigma_attr_err t gmvs i_m hnone⟩
  · intro dv g rest hdv hgs hpt hok hne
    have hor : t.plot_type = "loglog" ∨ t.plot_type = "semilogy" := Or.inr hpt
    obtain ⟨ys, hys, hlen⟩ : ∃ ys, getEntryRow0 gmvs g i_m = Except.ok ys ∧ dv.length = ys.length := by
      unfold gOK at hok
      cases hys : getEntryRow0 gmvs g i_m with
      | ok ys =>
        rw [hys] at hok
        exact ⟨ys, rfl, by simpa using hok⟩
      | error e => rw [hys] at hok; simp at hok
    rw [build_plot_mean_eq t gmvs i_m dv hdv hor, build_plot_sigma_eq t gmvs i_m dv hdv hor, hgs]
    constructor
    · exact buildLoop_cons_err _ g rest [] AxisState.start _
        (stepMean_dl_err t.plot_type t.distance_type i_m dv gmvs g AxisState.start ys hys hlen hne h5)
    · exact buildLoop_cons_err _ g rest [] AxisState.start _
        (stepSigma_dl_err t.plot_type t.distance_type t.stddevs i_m dv gmvs g AxisState.start ys hys hlen hne h5)

def trellisC9 : SigmaTrellis :=
  { gsims := ["GMPEAlpha"], imts := ["PGA"], numRctx := 1, nsites := 2,
    stddevs := "Total", plot_type := "semilogy", distance_type := "azimuth",
    dctx := specDctx [1, 10] }

def gmvsC9 : GMVTable := [("GMPEAlpha", [("PGA", GMVEntry.table [[5, 6]])])]

/-- C9 counterexample: with the spec-modelled distance context (binding
exactly the five recognized metrics) and the unrecognized distance type
"azimuth", rendering fails with the attribute-lookup error at the
distance-value read, not with the `KeyError` of the distance-label-table
lookup at label-assignment time. -/
theorem C9_counterexample :
    build_plot_mean trellisC9 gmvsC9 ("PGA") = Except.error (PyErr.attributeError ("azimuth")) ∧
    build_plot_sigma trellisC9 gmvsC9 ("PGA") = Except.error (PyErr.attributeError ("azimuth")) ∧
    DISTANCE_LABEL_MAP.lookup ("azimuth") = none ∧
    PyErr.attributeError ("azimuth") ≠ PyErr.keyError ("azimuth") :=
  ⟨rfl, rfl, rfl, by decide⟩

def trellisC9b : SigmaTrellis :=
  { gsims := ["GMPEAlpha"], imts := ["PGA"], numRctx := 1, nsites := 2,
    stddevs := "Total", plot_type := "semilogy", distance_type := "azimuth",
    dctx := [("azimuth", [1, 10])] }

/-- C9 witness: both halves of the amended statement at concrete inputs —
the attribute-error half on the spec-modelled context, and the
label-assignment `KeyError` half on a context that does bind "azimuth". -/
theorem C9_unrecognized_distance_type_witness :
    (build_plot_mean trellisC9 gmvsC9 ("PGA") = Except.error (PyErr.attributeError ("azimuth")) ∧
     build_plot_sigma trellisC9 gmvsC9 ("PGA") = Except.error (PyErr.attributeError ("azimuth"))) ∧
    (build_plot_mean trellisC9b gmvsC9 ("PGA") = Except.error (PyErr.keyError ("azimuth")) ∧
     build_plot_sigma trellisC9b gmvsC9 ("PGA") = Except.error (PyErr.keyError ("azimuth"))) :=
  ⟨(C9_unrecognized_distance_type trellisC9 gmvsC9 ("PGA") rfl).1 rfl,
   (C9_unrecognized_distance_type trellisC9b gmvsC9 ("PGA") rfl).2 [1, 10] ("GMPEAlpha") []
     rfl rfl rfl (by decide) (by decide)⟩

/-- C10: on a successful rendering call each drawn line carries exactly row 0
of the value-table entry for its GMPE, and the rendered output is unchanged
under any modification of the table that preserves the row-0 view of every
drawn GMPE — rows after the first are never drawn. -/
theorem C10_first_row_only (t : SigmaTrellis) (gmvs gmvs2 : GMVTable) (i_m : String)
    (dv : List Int) (dl u : String)
    (hdv : t.dctx.lookup t.distance_type = some dv) (hne : dv ≠ [])
    (hdl : DISTANCE_LABEL_MAP.lookup t.distance_type = some dl)
    (hu : unitsRes i_m = Except.ok u)
    (hrow : ∀ g ∈ t.gsims, gOK gmvs i_m dv g = true)
    (hpt : t.plot_type = "loglog" ∨ t.plot_type = "semilogy") :
    (lineYs (build_plot_mean t gmvs i_m) = t.gsims.map (row0D gmvs i_m) ∧
     lineYs (build_plot_sigma t gmvs i_m) = t.gsims.map (row0D gmvs i_m)) ∧
    ((∀ g ∈ t.gsims, getEntryRow0 gmvs2 g i_m = getEntryRow0 gmvs g i_m) →
      build_plot_mean t gmvs2 i_m = build_plot_mean t gmvs i_m ∧
      build_plot_sigma t gmvs2 i_m = build_plot_sigma t gmvs i_m) := by
  constructor
  · rw [build_plot_mean_eq t gmvs i_m dv hdv hpt, build_plot_sigma_eq t gmvs i_m dv hdv hpt,
        buildLoopMean_ok t.plot_type t.distance_type i_m dv gmvs dl u hne hdl hu t.gsims [] AxisState.start hrow,
        buildLoopSigma_ok t.plot_type t.distance_type t.stddevs i_m dv gmvs dl hne hdl t.gsims [] AxisState.start hrow]
    simp only [lineYs]
    rw [axAfter_lines_ys, axAfter_lines_ys]
    exact ⟨rfl, rfl⟩
  · intro hagree
    rw [build_plot_mean_eq t gmvs i_m dv hdv hpt, build_plot_sigma_eq t gmvs i_m dv hdv hpt,
        build_plot_mean_eq t gmvs2 i_m dv hdv hpt, build_plot_sigma_eq t gmvs2 i_m dv hdv hpt]
    constructor
    · exact buildLoop_congr _ _ t.gsims
        (fun g hg ax => stepMean_congr t.plot_type t.distance_type i_m dv gmvs gmvs2 g (hagree g hg) ax) [] AxisState.start
    · exact buildLoop_congr _ _ t.gsims
        (fun g hg ax => stepSigma_congr t.plot_type t.distance_type t.stddevs i_m dv gmvs gmvs2 g (hagree g hg) ax) [] AxisState.start

def trellisC10 : SigmaTrellis :=
  { gsims := ["GMPEAlpha"], imts := ["PGA"], numRctx := 2, nsites := 2,
    stddevs := "Total", plot_type := "semilogy", distance_type := "rjb",
    dctx := [("rjb", [1, 10])] }

def gmvsC10 : GMVTable := [("GMPEAlpha", [("PGA", GMVEntry.table [[5, 6], [7, 8]])])]

def gmvsC10b : GMVTable := [("GMPEAlpha", [("PGA", GMVEntry.table [[5, 6], [90, 91]])])]

/-- C10 witness: with a two-row entry only row 0 is drawn, and replacing
row 1 by different values leaves the rendered output unchanged. -/
theorem C10_first_row_only_witness :
    (lineYs (build_plot_mean trellisC10 gmvsC10 ("PGA")) = [[5, 6]] ∧
     lineYs (build_plot_sigma trellisC10 gmvsC10 ("PGA")) = [[5, 6]]) ∧
    (build_plot_mean trellisC10 gmvsC10b ("PGA") = build_plot_mean trellisC10 gmvsC10 ("PGA") ∧
     build_plot_sigma trellisC10 gmvsC10b ("PGA") = build_plot_sigma trellisC10 gmvsC10 ("PGA")) := by
  have h := C10_first_row_only trellisC10 gmvsC10 gmvsC10b ("PGA") [1, 10]
    ("Joyner-Boore Dist.") ("g") rfl (by decide) rfl rfl (by decide) (Or.inr rfl)
  exact ⟨h.1, h.2 (by intro g hg; simp [trellisC10] at hg; subst hg; rfl)⟩

def trellisC2 : SigmaTrellis :=
  { gsims := ["GMPEAlpha"], imts := ["PGA"], numRctx := 1, nsites := 2,
    stddevs := "Total", plot_type := "semilogy", distance_type := "rjb",
    dctx := [("rjb", [1, 10])] }

def gmvsC2 : GMVTable := [("GMPEAlpha", [("PGA", GMVEntry.empty)])]

def fromStringC2 : FromStringFun := fun s => Except.ok { tag := s }

def gmmC2 : GmmFun := fun _ _ _ _ => Except.error (PyErr.keyError ("PGA"))

/-- C2 (code bug): the collector itself produces the empty marker for an
unsupported (GMPE, IM) pair, but rendering that intensity measure then
indexes `[0, :]` on the empty Python list and raises a `TypeError` in BOTH
renderer variants — the renderer does not skip the empty entry. -/
theorem C2_empty_marker_crashes_renderer :
    get_ground_motion_values trellisC2 fromStringC2 gmmC2 = Except.ok gmvsC2 ∧
    lookup2 gmvsC2 ("GMPEAlpha") ("PGA") = some GMVEntry.empty ∧
    build_plot_mean trellisC2 gmvsC2 ("PGA") =
      Except.error (PyErr.typeError ("list indices must be integers")) ∧
    build_plot_sigma trellisC2 gmvsC2 ("PGA") =
      Except.error (PyErr.typeError ("list indices must be integers")) :=
  ⟨rfl, rfl, rfl, rfl⟩

/-- C1: when the evaluation of some rupture-context row for a (GMPE, IM) pair
signals a `KeyError` (all earlier rows having succeeded), the collector
returns normally, the entry of that pair in the returned table is the empty
marker, and the remaining rows of that pair are never consulted: any row
evaluation agreeing up to the failing row produces the same empty entry. -/
theorem C1_keyerror_yields_empty_entry (t : SigmaTrellis) (fs : FromStringFun) (gmm : GmmFun)
    (g i_m : String) (k : Nat)
    (hg : g ∈ t.gsims) (him : i_m ∈ t.imts) (hk : k < t.numRctx)
    (hker : rowKeyErr (rowEvalF fs gmm t g i_m) k = true)
    (hpre : ∀ j, j < k → rowOkWithLen (rowEvalF fs gmm t g i_m) t.nsites j = true)
    (hall : ∀ g2 ∈ t.gsims, ∀ im2 ∈ t.imts,
      exOk (computeEntry (rowEvalF fs gmm t g2 im2) t.numRctx t.nsites) = true) :
    exOk (get_ground_motion_values t fs gmm) = true ∧
    collectedEntry (get_ground_motion_values t fs gmm) g i_m = some GMVEntry.empty ∧
    (∀ re2 : Nat → Except PyErr (List Int),
      (∀ j, j ≤ k → re2 j = rowEvalF fs gmm t g i_m j) →
      computeEntry re2 t.numRctx t.nsites = Except.ok GMVEntry.empty) := by
  obtain ⟨key, hkey⟩ := rowKeyErr_key hker
  have hce : computeEntry (rowEvalF fs gmm t g i_m) t.numRctx t.nsites =
      Except.ok GMVEntry.empty :=
    computeEntry_key _ _ _ k key hk hkey hpre
  obtain ⟨tbl, htbl, hlk⟩ := gmv_ok_lookup t fs gmm hall
  refine ⟨by rw [htbl]; rfl, ?_, ?_⟩
  · rw [htbl]
    simp only [collectedEntry]
    rw [hlk g hg i_m him, hce]
    rfl
  · intro re2 hagree
    apply computeEntry_key re2 t.numRctx t.nsites k key hk
    · rw [hagree k (le_refl k), hkey]
    · intro j hj
      have heq : rowOkWithLen re2 t.nsites j =
          rowOkWithLen (rowEvalF fs gmm t g i_m) t.nsites j := by
        unfold rowOkWithLen
        rw [hagree j (le_of_lt hj)]
      rw [heq]
      exact hpre j hj

def trellisC1 : SigmaTrellis :=
  { gsims := ["GMPEAlpha"], imts := ["PGA"], numRctx := 1, nsites := 2,
    stddevs := "Total", plot_type := "semilogy", distance_type := "rjb",
    dctx := [("rjb", [1, 10])] }

def fromStringC1 : FromStringFun := fun s => Except.ok { tag := s }

def gmmC1 : GmmFun := fun _ _ _ _ => Except.error (PyErr.keyError ("PGA"))

/-- C1 witness: a GMPE whose evaluation raises `KeyError` on the first
rupture row yields a normal return with the empty marker as the entry. -/
theorem C1_keyerror_yields_empty_entry_witness :
    exOk (get_ground_motion_values trellisC1 fromStringC1 gmmC1) = true ∧
    collectedEntry (get_ground_motion_values trellisC1 fromStringC1 gmmC1)
      ("GMPEAlpha") ("PGA") = some GMVEntry.empty ∧
    computeEntry (rowEvalF fromStringC1 gmmC1 trellisC1 ("GMPEAlpha") ("PGA")) 1 2 =
      Except.ok GMVEntry.empty := by
  have h := C1_keyerror_yields_empty_entry trellisC1 fromStringC1 gmmC1
    ("GMPEAlpha") ("PGA") 0 (by decide) (by decide) (by decide) rfl
    (fun j hj => absurd hj (Nat.not_lt_zero j))
    (by
      intro g2 hg2 im2 him2
      simp [trellisC1] at hg2 him2
      subst hg2
      subst him2
      rfl)
  exact ⟨h.1, h.2.1, h.2.2 _ (fun j _ => rfl)⟩

/-- C5: only the `KeyError` class is caught by the collector — a non-KeyError
failure of a row evaluation propagates unmodified out of the per-pair loop
and out of the whole collector call, the collector never raises a
`KeyError`, and an empty-marker entry can only have come from a row that
raised a `KeyError`. -/
theorem C5_only_keyerror_caught (re : Nat → Except PyErr (List Int)) (n s k : Nat) (e : PyErr)
    (hk : k < n) (hke : re k = Except.error e) (hne : e.isKeyError = false)
    (hpre : ∀ j, j < k → rowOkWithLen re s j = true) :
    computeEntry re n s = Except.error e ∧
    (∀ (t : SigmaTrellis) (fs : FromStringFun) (gmm : GmmFun) (g i_m : String)
        (gs2 im2 : List String),
      t.gsims = g :: gs2 → t.imts = i_m :: im2 →
      computeEntry (rowEvalF fs gmm t g i_m) t.numRctx t.nsites = Except.error e →
      get_ground_motion_values t fs gmm = Except.error e) ∧
    (∀ (t : SigmaTrellis) (fs : FromStringFun) (gmm : GmmFun) (e2 : PyErr),
      get_ground_motion_values t fs gmm = Except.error e2 → PyErr.isKeyError e2 = false) ∧
    (∀ (re2 : Nat → Except PyErr (List Int)) (n2 s2 : Nat),
      computeEntry re2 n2 s2 = Except.ok GMVEntry.empty →
      ∃ j, j < n2 ∧ ∃ key, re2 j = Except.error (PyErr.keyError key)) := by
  refine ⟨computeEntry_err re n s k e hk hke hne hpre, ?_, ?_, ?_⟩
  · intro t fs gmm g i_m gs2 im2 hgs him hce
    exact gmv_head_err t fs gmm g i_m gs2 im2 e hgs him hce
  · intro t fs gmm e2 h
    unfold get_ground_motion_values at h
    exact collectGMVs_error_not_key _ t.imts t.numRctx t.nsites t.gsims e2 h
  · intro re2 n2 s2 h
    exact computeEntry_empty_key h

def reC5 : Nat → Except PyErr (List Int) := fun _ => Except.error (PyErr.typeError ("boom"))

def trellisC5 : SigmaTrellis :=
  { gsims := ["GMPEAlpha"], imts := ["PGA"], numRctx := 1, nsites := 2,
    stddevs := "Total", plot_type := "semilogy", distance_type := "rjb",
    dctx := [("rjb", [1, 10])] }

def fromStringC5 : FromStringFun := fun s => Except.ok { tag := s }

def gmmC5 : GmmFun := fun _ _ _ _ => Except.error (PyErr.typeError ("boom"))

/-- C5 witness: a `TypeError` raised by the evaluation propagates unmodified
through the per-pair loop and the whole collector, and is not a
`KeyError`. -/
theorem C5_only_keyerror_caught_witness :
    computeEntry reC5 1 2 = Except.error (PyErr.typeError ("boom")) ∧
    get_ground_motion_values trellisC5 fromStringC5 gmmC5 =
      Except.error (PyErr.typeError ("boom")) ∧
    PyErr.isKeyError (PyErr.typeError ("boom")) = false := by
  have h := C5_only_keyerror_caught reC5 1 2 0 (PyErr.typeError ("boom"))
    (by decide) rfl (by decide) (fun j hj => absurd hj (Nat.not_lt_zero j))
  have h2 : get_ground_motion_values trellisC5 fromStringC5 gmmC5 =
      Except.error (PyErr.typeError ("boom")) :=
    h.2.1 trellisC5 fromStringC5 gmmC5 ("GMPEAlpha") ("PGA") [] [] rfl rfl rfl
  exact ⟨h.1, h2, h.2.2.1 trellisC5 fromStringC5 gmmC5 _ h2⟩

/-- C6: for a pair every one of whose rupture rows evaluates successfully to
an array of site length (and a collector run that returns), the returned
table entry is a 2-D array with one row per rupture context, each row of
site length, and row `j` equal to the array the evaluation returned for
rupture context `j`. -/
theorem C6_supported_pair_shape (t : SigmaTrellis) (fs : FromStringFun) (gmm : GmmFun)
    (g i_m : String) (hg : g ∈ t.gsims) (him : i_m ∈ t.imts)
    (hrows : ∀ j, j < t.numRctx → rowOkWithLen (rowEvalF fs gmm t g i_m) t.nsites j = true)
    (hall : ∀ g2 ∈ t.gsims, ∀ im2 ∈ t.imts,
      exOk (computeEntry (rowEvalF fs gmm t g2 im2) t.numRctx t.nsites) = true) :
    exOk (get_ground_motion_values t fs gmm) = true ∧
    isTable (collectedEntry (get_ground_motion_values t fs gmm) g i_m) = true ∧
    (entryRows (collectedEntry (get_ground_motion_values t fs gmm) g i_m)).length = t.numRctx ∧
    (∀ r ∈ entryRows (collectedEntry (get_ground_motion_values t fs gmm) g i_m),
      r.length = t.nsites) ∧
    (∀ j v, j < t.numRctx → rowEvalF fs gmm t g i_m j = Except.ok v →
      (entryRows (collectedEntry (get_ground_motion_values t fs gmm) g i_m)).getD j [] = v) := by
  obtain ⟨tbl, htbl, hlk⟩ := gmv_ok_lookup t fs gmm hall
  have hce := computeEntry_all_ok (rowEvalF fs gmm t g i_m) t.numRctx t.nsites hrows
  have hE : collectedEntry (get_ground_motion_values t fs gmm) g i_m =
      some (GMVEntry.table (setRows (rowEvalF fs gmm t g i_m) (List.range t.numRctx)
        (List.replicate t.numRctx (List.replicate t.nsites 0)))) := by
    rw [htbl]
    simp only [collectedEntry]
    rw [hlk g hg i_m him, hce]
    rfl
  refine ⟨by rw [htbl]; rfl, by rw [hE]; rfl, ?_, ?_, ?_⟩
  · rw [hE]
    simp only [entryRows]
    rw [setRows_length]
    simp
  · rw [hE]
    simp only [entryRows]
    intro r hr
    refine setRows_mem_length _ t.nsites _ _ ?_ ?_ r hr
    · intro r2 hr2
      rw [List.eq_of_mem_replicate hr2]
      simp
    · intro i hi
      exact hrows i (List.mem_range.mp hi)
  · intro j v hj hjv
    rw [hE]
    simp only [entryRows]
    have hgd := setRows_range_getD (rowEvalF fs gmm t g i_m) t.numRctx
      (List.replicate t.numRctx (List.replicate t.nsites 0)) j hj (by simp)
    rw [hgd]
    simp [rowValD, hjv]

def trellisC6 : SigmaTrellis :=
  { gsims := ["GMPEAlpha"], imts := ["PGA"], numRctx := 1, nsites := 2,
    stddevs := "Total", plot_type := "semilogy", distance_type := "rjb",
    dctx := [("rjb", [1, 10])] }

def fromStringC6 : FromStringFun := fun s => Except.ok { tag := s }

def gmmC6 : GmmFun := fun _ _ _ _ => Except.ok ([1, 2], [[5, 6]])

/-- C6 witness: a fully supported pair yields a one-row, two-column table
entry whose row 0 is the returned standard-deviation array. -/
theorem C6_supported_pair_shape_witness :
    exOk (get_ground_motion_values trellisC6 fromStringC6 gmmC6) = true ∧
    isTable (collectedEntry (get_ground_motion_values trellisC6 fromStringC6 gmmC6)
      ("GMPEAlpha") ("PGA")) = true ∧
    (entryRows (collectedEntry (get_ground_motion_values trellisC6 fromStringC6 gmmC6)
      ("GMPEAlpha") ("PGA"))).length = 1 ∧
    (entryRows (collectedEntry (get_ground_motion_values trellisC6 fromStringC6 gmmC6)
      ("GMPEAlpha") ("PGA"))).getD 0 [] = [5, 6] := by
  have h := C6_supported_pair_shape trellisC6 fromStringC6 gmmC6 ("GMPEAlpha") ("PGA")
    (by decide) (by decide)
    (by
      intro j hj
      simp [trellisC6] at hj
      subst hj
      rfl)
    (by
      intro g2 hg2 im2 him2
      simp [trellisC6] at hg2 him2
      subst hg2
      subst him2
      rfl)
  exact ⟨h.1, h.2.1, h.2.2.1, h.2.2.2.2 0 [5, 6] (by decide) rfl⟩

def trellisC3 : SigmaTrellis :=
  { gsims := ["GMPEAlpha"], imts := ["PGA"], numRctx := 1, nsites := 2,
    stddevs := "Total", plot_type := "semilogy", distance_type := "rjb",
    dctx := [("rjb", [1, 10])] }

def trellisC3L : SigmaTrellis :=
  { gsims := ["GMPEAlpha"], imts := ["PGA"], numRctx := 1, nsites := 2,
    stddevs := "Total", plot_type := "loglog", distance_type := "rjb",
    dctx := [("rjb", [1, 10])] }

def gmvsC3 : GMVTable := [("GMPEAlpha", [("PGA", GMVEntry.table [[5, 6]])])]

/-- C3 witness: both flag values evaluated on concrete rendering calls —
"semilogy" gives a semi-log-y mean line and a linear sigma line, "loglog"
gives a log-log mean line and a semi-log-x sigma line. -/
theorem C3_scale_flag_interpretation_witness :
    (lineKinds (build_plot_mean trellisC3 gmvsC3 ("PGA")) = [DrawKind.semilogy] ∧
     lineKinds (build_plot_sigma trellisC3 gmvsC3 ("PGA")) = [DrawKind.linear]) ∧
    (lineKinds (build_plot_mean trellisC3L gmvsC3 ("PGA")) = [DrawKind.loglog] ∧
     lineKinds (build_plot_sigma trellisC3L gmvsC3 ("PGA")) = [DrawKind.semilogx]) := by
  have h1 := C3_scale_flag_interpretation trellisC3 gmvsC3 ("PGA") [1, 10]
    ("Joyner-Boore Dist.") ("g") rfl (by decide) rfl rfl (by decide)
  have h2 := C3_scale_flag_interpretation trellisC3L gmvsC3 ("PGA") [1, 10]
    ("Joyner-Boore Dist.") ("g") rfl (by decide) rfl rfl (by decide)
  exact ⟨h1.1 rfl, h2.2 rfl⟩
